import Mathlib

/-!
# SlamDataPub: a shallow embedding of `src/src/SlamDataPub.cc`

The class `ORB_SLAM2::SlamDataPub` is embedded as a record of the member
variables the publishing code reads and writes, and every member function as a
function on that record.  Output arguments (`geometry_msgs::PoseStamped &`,
`nav_msgs::Path &`, `sensor_msgs::PointCloud2 &`) are passed in and returned.

Conventions of the embedding:

* `float` scalars are exact rationals, so `*` on matrices is the exact matrix
  product and matrix inversion is the exact inverse;
* a `cv::Mat` holding a pose is `Option Matrix4f`, `none` being the matrix for
  which `empty()` is true;
* `ros::Time::now()` is an argument `now` of the function that reads the clock;
* `MapPoint *` is an address, and the pointed-to objects are read through
  `MapPoints.isBad` and `MapPoints.GetWorldPos`;
* the member functions are first embedded as sequential state transformers,
  in which the mutexes they take do not appear; `SetCurrentCameraPose` and
  `GetCurrentROSCameraMatrix` are then also embedded statement by statement,
  with `mMutexCamera`, as the steps of one producer thread and of any number
  of reader threads that a scheduler interleaves.
-/

namespace ORB_SLAM2

/-! ## Scalars, matrices and messages -/

/-- Scalars of the embedding (`float` in the source, exact here). -/
abbrev Scalar := ℚ

/-- `Eigen::Matrix4f`, also a non-empty 4x4 `cv::Mat`. -/
abbrev Matrix4f := Matrix (Fin 4) (Fin 4) Scalar

/-- `Eigen::Matrix3f`. -/
abbrev Matrix3f := Matrix (Fin 3) (Fin 3) Scalar

/-- `Eigen::Vector3f`, also the `x, y, z` of a `geometry_msgs::Point`. -/
abbrev Vector3f := Fin 3 → Scalar

/-- Exact inverse of a 4x4 matrix, the adjugate divided by the determinant.
It embeds both `cv::Mat::inv()` (which yields the zero matrix for a singular
argument, as this function does) and `Eigen::Matrix4f::inverse()`. -/
def inverse (A : Matrix4f) : Matrix4f := (A.det)⁻¹ • A.adjugate

/-- The entries `(0,3), (1,3), (2,3)` of a 4x4 matrix: its translation column. -/
def translation (A : Matrix4f) : Vector3f := fun i => A (Fin.castSucc i) 3

/-- The block `A.block<3, 3>(0, 0)` of a 4x4 matrix: its rotation block. -/
def block3 (A : Matrix4f) : Matrix3f := fun i j => A (Fin.castSucc i) (Fin.castSucc j)

/-- The 4x4 matrix with rotation block `R`, translation column `t` and bottom
row `0 0 0 1`, built as the constructor builds `mTrans_cam2ground`:
`setIdentity()` followed by the two block assignments. -/
def homogeneous (R : Matrix3f) (t : Vector3f) : Matrix4f :=
  !![R 0 0, R 0 1, R 0 2, t 0;
     R 1 0, R 1 1, R 1 2, t 1;
     R 2 0, R 2 1, R 2 2, t 2;
     0,     0,     0,     1]

/-- The header of a ROS message: `seq`, `stamp`, `frame_id`. -/
structure Header where
  seq : Nat
  stamp : Nat
  frame_id : String

/-- A `geometry_msgs::Quaternion` as this file produces it: either the value
`(0,0,0,0)` of a default-constructed message, or `Eigen::Quaternionf q(Rwc)`
for a rotation block `Rwc`, kept as that block. -/
inductive Quaternion where
  | zero : Quaternion
  | ofRotation (Rwc : Matrix3f) : Quaternion

/-- The message `geometry_msgs::Pose`. -/
structure Pose where
  position : Vector3f
  orientation : Quaternion

/-- The message `geometry_msgs::PoseStamped`. -/
structure PoseStamped where
  header : Header
  pose : Pose

/-- The message `nav_msgs::Path`. -/
structure Path where
  header : Header
  poses : List PoseStamped

/-- A default-constructed header. -/
def Header.default : Header := { seq := 0, stamp := 0, frame_id := "" }

/-- A default-constructed `geometry_msgs::PoseStamped`. -/
def PoseStamped.default : PoseStamped :=
  { header := Header.default, pose := { position := 0, orientation := Quaternion.zero } }

/-- A default-constructed `nav_msgs::Path`. -/
def Path.default : Path := { header := Header.default, poses := [] }

/-! ## The object -/

/-- The member variables of `SlamDataPub` used by the publishing code. -/
structure SlamDataPub where
  mbFinishRequested : Bool
  mbFinished : Bool
  mbStopped : Bool
  mbStopRequested : Bool
  mbGetNewCamPose : Bool
  mCameraPose : Option Matrix4f
  mTrans_cam2ground : Matrix4f
  mTrans_cam2vehicle : Matrix4f
  mCam2GroundNow_T : Matrix4f
  mVehicle2GroundNow_T : Matrix4f

/-- The matrix `mInitCam2Ground_R` of the constructor. -/
def mInitCam2Ground_R : Matrix3f := !![0, 0, 1; -1, 0, 0; 0, -1, 0]

/-- The vector `mInitCam2Ground_t` of the constructor (`setZero()`). -/
def mInitCam2Ground_t : Vector3f := 0

/-- The matrix `mCam2Vehicle_R` of the constructor. -/
def mCam2Vehicle_R : Matrix3f := !![0, 0, 1; -1, 0, 0; 0, -1, 0]

/-- The vector `mCam2Vehicle_t` of the constructor (`setZero()`). -/
def mCam2Vehicle_t : Vector3f := 0

/-- The constructor `SlamDataPub::SlamDataPub`.  The initialiser list sets the
four life-cycle flags and the body the two fixed transforms; `mCameraPose` is
a default `cv::Mat`, which is empty.  The constructor assigns neither
`mbGetNewCamPose` nor the two cached matrices: their initial values are the
arguments `newCamPose0`, `cam2GroundNow0` and `vehicle2GroundNow0`.  The
settings read from the file (`mT`, `mImageWidth`, `mImageHeight`) are used by
no function embedded here and are left out. -/
def SlamDataPub.construct (newCamPose0 : Bool) (cam2GroundNow0 vehicle2GroundNow0 : Matrix4f) :
    SlamDataPub :=
  { mbFinishRequested := false
    mbFinished := true
    mbStopped := true
    mbStopRequested := false
    mbGetNewCamPose := newCamPose0
    mCameraPose := none
    mTrans_cam2ground := homogeneous mInitCam2Ground_R mInitCam2Ground_t
    mTrans_cam2vehicle := homogeneous mCam2Vehicle_R mCam2Vehicle_t
    mCam2GroundNow_T := cam2GroundNow0
    mVehicle2GroundNow_T := vehicle2GroundNow0 }

/-! ## Life cycle: finish, stop, release -/

/-- The first two statements of `SlamDataPub::Run`, which clear `mbFinished`
and `mbStopped` before the publishing threads are started. -/
def RunEntry (s : SlamDataPub) : SlamDataPub :=
  { s with mbFinished := false, mbStopped := false }

/-- The member function `RequestFinish`. -/
def RequestFinish (s : SlamDataPub) : SlamDataPub :=
  { s with mbFinishRequested := true }

/-- The member function `CheckFinish`. -/
def CheckFinish (s : SlamDataPub) : Bool := s.mbFinishRequested

/-- The member function `SetFinish`. -/
def SetFinish (s : SlamDataPub) : SlamDataPub :=
  { s with mbFinished := true }

/-- The member function `isFinished`. -/
def isFinished (s : SlamDataPub) : Bool := s.mbFinished

/-- The member function `RequestStop`. -/
def RequestStop (s : SlamDataPub) : SlamDataPub :=
  if !s.mbStopped then { s with mbStopRequested := true } else s

/-- The member function `isStopped`. -/
def isStopped (s : SlamDataPub) : Bool := s.mbStopped

/-- The member function `Stop`: the returned flag and the state afterwards. -/
def Stop (s : SlamDataPub) : Bool × SlamDataPub :=
  if s.mbFinishRequested then (false, s)
  else if s.mbStopRequested then
    (true, { s with mbStopped := true, mbStopRequested := false })
  else (false, s)

/-- The member function `Release`. -/
def Release (s : SlamDataPub) : SlamDataPub :=
  { s with mbStopped := false }

/-! ## Camera pose, vehicle pose and trajectories -/

/-- The assignments of `position` and `orientation` that the three pose
functions make from a 4x4 pose matrix: the position is the translation column
and the orientation is `Eigen::Quaternionf q(Rwc)` of the rotation block. -/
def poseOfMatrix (T : Matrix4f) : Pose :=
  { position := translation T, orientation := Quaternion.ofRotation (block3 T) }

/-- The member function `SetCurrentCameraPose`: `mCameraPose = Tcw.clone()`
and `mbGetNewCamPose = true` (the printing of `Tcw` is left out). -/
def SetCurrentCameraPose (s : SlamDataPub) (Tcw : Option Matrix4f) : SlamDataPub :=
  { s with mCameraPose := Tcw, mbGetNewCamPose := true }

/-- The member function `GetCurrentROSCameraMatrix`: the state afterwards and
the output argument `cam_pose` afterwards. -/
def GetCurrentROSCameraMatrix (s : SlamDataPub) (now : Nat) (cam_pose : PoseStamped) :
    SlamDataPub × PoseStamped :=
  match s.mCameraPose with
  | none => (s, cam_pose)
  | some Tcw =>
    let cam_pose2firstcam := inverse Tcw
    let cam_pose2ground := s.mTrans_cam2ground * cam_pose2firstcam
    ({ s with mCam2GroundNow_T := cam_pose2ground, mbGetNewCamPose := false },
     { header := { cam_pose.header with frame_id := "ground", stamp := now }
       pose := poseOfMatrix cam_pose2ground })

/-- The member function `GetCurrentROSVehicleMatrix`: the state afterwards and
the output argument `vehicle_pose` afterwards. -/
def GetCurrentROSVehicleMatrix (s : SlamDataPub) (now : Nat) (vehicle_pose : PoseStamped) :
    SlamDataPub × PoseStamped :=
  match s.mCameraPose with
  | none => (s, vehicle_pose)
  | some _ =>
    let vehicle_pose2ground := s.mCam2GroundNow_T * inverse s.mTrans_cam2vehicle
    ({ s with mVehicle2GroundNow_T := vehicle_pose2ground },
     { header := { vehicle_pose.header with frame_id := "ground", stamp := now }
       pose := poseOfMatrix vehicle_pose2ground })

/-- The local variables that the loop of `GetCurrentROSTrajectories` updates. -/
structure TrajectoryLocals where
  cam_pose : PoseStamped
  vehicle_pose : PoseStamped
  cam_path_temp : Path
  vehicle_path_temp : Path

/-- One pass through the body of the range-for loop of
`GetCurrentROSTrajectories` for the history entry `mt`. -/
def trajectoryStep (s : SlamDataPub) (l : TrajectoryLocals) (mt : Matrix4f) : TrajectoryLocals :=
  let cam_pose_temp := mt
  let cam_pose2ground := s.mTrans_cam2ground * cam_pose_temp
  let vehicle_pose2ground := cam_pose2ground * inverse s.mTrans_cam2vehicle
  let cam_pose := { l.cam_pose with pose := poseOfMatrix cam_pose2ground }
  let vehicle_pose := { l.vehicle_pose with pose := poseOfMatrix vehicle_pose2ground }
  { cam_pose := cam_pose
    vehicle_pose := vehicle_pose
    cam_path_temp := { l.cam_path_temp with poses := l.cam_path_temp.poses ++ [cam_pose] }
    vehicle_path_temp :=
      { l.vehicle_path_temp with poses := l.vehicle_path_temp.poses ++ [vehicle_pose] } }

/-- The member function `GetCurrentROSTrajectories`, for the history
`currentTrajectory` that `mpSystem->GetCurrentTrajectory` hands over: the
output arguments `cam_path` and `vehicle_path` afterwards.  The two header
stamps are two readings of the clock. -/
def GetCurrentROSTrajectories (s : SlamDataPub) (currentTrajectory : List Matrix4f)
    (nowCam nowVehicle : Nat) (cam_path vehicle_path : Path) : Path × Path :=
  match s.mCameraPose with
  | none => (cam_path, vehicle_path)
  | some _ =>
    let l := currentTrajectory.foldl (trajectoryStep s)
      { cam_pose := PoseStamped.default
        vehicle_pose := PoseStamped.default
        cam_path_temp := Path.default
        vehicle_path_temp := Path.default }
    ({ l.cam_path_temp with
        header := { l.cam_path_temp.header with frame_id := "ground", stamp := nowCam } },
     { l.vehicle_path_temp with
        header := { l.vehicle_path_temp.header with frame_id := "ground", stamp := nowVehicle } })

/-! ## Point clouds -/

/-- The address held by a `MapPoint *`. -/
abbrev MapPointPtr := Nat

/-- The map points as this file reads them: `p->isBad()` and
`p->GetWorldPos()` for the object at address `p`. -/
structure MapPoints where
  isBad : MapPointPtr → Bool
  GetWorldPos : MapPointPtr → Vector3f

/-- The point type `pcl::PointXYZRGBA`. -/
structure PointXYZRGBA where
  x : Scalar
  y : Scalar
  z : Scalar
  r : Nat
  g : Nat
  b : Nat
  a : Nat

/-- The message `sensor_msgs::PointCloud2`, its data kept as the points it encodes. -/
structure PointCloud2 where
  header : Header
  points : List PointXYZRGBA

/-- A default-constructed `sensor_msgs::PointCloud2`. -/
def PointCloud2.default : PointCloud2 := { header := Header.default, points := [] }

/-- Insertion of one key into a `std::set<MapPoint *>`, kept as the strictly
increasing list of its keys. -/
def setInsert (x : MapPointPtr) : List MapPointPtr → List MapPointPtr
  | [] => [x]
  | y :: ys =>
    if x < y then x :: y :: ys
    else if x = y then y :: ys
    else y :: setInsert x ys

/-- The range constructor `set<MapPoint *> spRefMPs(vpRefMPs.begin(), vpRefMPs.end())`. -/
def setOfRange (v : List MapPointPtr) : List MapPointPtr :=
  v.foldl (fun sp x => setInsert x sp) []

/-- The homogeneous product `mTrans_cam2ground * (pos(0), pos(1), pos(2), 1)`. -/
def transformPoint (T : Matrix4f) (pos : Vector3f) : Fin 4 → Scalar :=
  Matrix.mulVec T ![pos 0, pos 1, pos 2, 1]

/-- The point `p1` pushed for a map point at world position `pos`: white. -/
def generalPoint (T : Matrix4f) (pos : Vector3f) : PointXYZRGBA :=
  let p1_temp_t := transformPoint T pos
  { x := p1_temp_t 0, y := p1_temp_t 1, z := p1_temp_t 2, r := 255, g := 255, b := 255, a := 255 }

/-- The point `p2` pushed for a reference map point at world position `pos`: red. -/
def referencePoint (T : Matrix4f) (pos : Vector3f) : PointXYZRGBA :=
  let p2_temp_t := transformPoint T pos
  { x := p2_temp_t 0, y := p2_temp_t 1, z := p2_temp_t 2, r := 255, g := 0, b := 0, a := 255 }

/-- An entry of a local cloud `cloud_all` or `cloud_ref`: the pushed point,
together with the address of the map point it was computed from.  The address
is bookkeeping of the embedding and is dropped when the cloud is converted
into a message. -/
abbrev CloudEntry := MapPointPtr × PointXYZRGBA

/-- One pass through the body of the first loop of
`GetCurrentROSAllPointCloud`, for `vpMPs[i] = p`. -/
def allPassStep (s : SlamDataPub) (mps : MapPoints) (spRefMPs : List MapPointPtr)
    (cloud_all : List CloudEntry) (p : MapPointPtr) : List CloudEntry :=
  if mps.isBad p || decide (p ∈ spRefMPs) then cloud_all
  else cloud_all ++ [(p, generalPoint s.mTrans_cam2ground (mps.GetWorldPos p))]

/-- One pass through the body of the second loop of
`GetCurrentROSAllPointCloud`, for `*sit = p`. -/
def refPassStep (s : SlamDataPub) (mps : MapPoints)
    (cloud_ref : List CloudEntry) (p : MapPointPtr) : List CloudEntry :=
  if mps.isBad p then cloud_ref
  else cloud_ref ++ [(p, referencePoint s.mTrans_cam2ground (mps.GetWorldPos p))]

/-- The local clouds `cloud_all` and `cloud_ref` when
`GetCurrentROSAllPointCloud` returns, for the vectors `vpMPs` and `vpRefMPs`
handed over by the map.  Both are still empty at the early return. -/
def localClouds (s : SlamDataPub) (mps : MapPoints) (vpMPs vpRefMPs : List MapPointPtr) :
    List CloudEntry × List CloudEntry :=
  let spRefMPs := setOfRange vpRefMPs
  if vpMPs.isEmpty then ([], [])
  else (vpMPs.foldl (allPassStep s mps spRefMPs) [], spRefMPs.foldl (refPassStep s mps) [])

/-- The conversion `toPCLPointCloud2` followed by `fromPCL` and the two
header assignments. -/
def toROSCloud (cloud : List CloudEntry) (now : Nat) : PointCloud2 :=
  { header := { seq := 0, stamp := now, frame_id := "ground" }
    points := cloud.map Prod.snd }

/-- The member function `GetCurrentROSAllPointCloud`: the output arguments
`all_point_cloud` and `ref_point_cloud` afterwards. -/
def GetCurrentROSAllPointCloud (s : SlamDataPub) (mps : MapPoints)
    (vpMPs vpRefMPs : List MapPointPtr) (nowAll nowRef : Nat)
    (all_point_cloud ref_point_cloud : PointCloud2) : PointCloud2 × PointCloud2 :=
  if vpMPs.isEmpty then (all_point_cloud, ref_point_cloud)
  else
    let clouds := localClouds s mps vpMPs vpRefMPs
    (toROSCloud clouds.1 nowAll, toROSCloud clouds.2 nowRef)

/-! ## The publishing loops -/

/-- What a publishing loop hands to a publisher or to the transform broadcaster. -/
inductive Published where
  | camera_pose (m : PoseStamped) : Published
  | vehicle_pose (m : PoseStamped) : Published
  | camera_path (m : Path) : Published
  | vehicle_path (m : Path) : Published
  | transform (q : Quaternion) (v : Vector3f) (stamp : Nat) (frame child : String) : Published
  | point_cloud_all (m : PointCloud2) : Published
  | point_cloud_ref (m : PointCloud2) : Published

/-- The messages declared before the loop of `TrackingDataPub`. -/
structure TrackingMessages where
  camPose2Ground : PoseStamped
  vehiclePose2Ground : PoseStamped
  cameraPath : Path
  vehiclePath : Path

/-- The messages as `TrackingDataPub` declares them. -/
def TrackingMessages.default : TrackingMessages :=
  { camPose2Ground := PoseStamped.default
    vehiclePose2Ground := PoseStamped.default
    cameraPath := Path.default
    vehiclePath := Path.default }

/-- The clock readings of one pass through the loop of `TrackingDataPub`. -/
structure TrackingClock where
  camPose : Nat
  vehiclePose : Nat
  camPath : Nat
  vehiclePath : Nat
  transform : Nat

/-- One pass through the loop body of `TrackingDataPub`, up to the call of
`CheckFinish`: the state, the loop's messages, and what was published, in
order. -/
def TrackingDataPubBody (s : SlamDataPub) (m : TrackingMessages)
    (currentTrajectory : List Matrix4f) (t : TrackingClock) :
    SlamDataPub × TrackingMessages × List Published :=
  if s.mbGetNewCamPose then
    let r1 := GetCurrentROSCameraMatrix s t.camPose m.camPose2Ground
    let r2 := GetCurrentROSVehicleMatrix r1.1 t.vehiclePose m.vehiclePose2Ground
    let r3 := GetCurrentROSTrajectories r2.1 currentTrajectory t.camPath t.vehiclePath
      m.cameraPath m.vehiclePath
    (r2.1,
     { camPose2Ground := r1.2, vehiclePose2Ground := r2.2, cameraPath := r3.1, vehiclePath := r3.2 },
     [Published.camera_pose r1.2, Published.vehicle_pose r2.2,
      Published.camera_path r3.1, Published.vehicle_path r3.2,
      Published.transform r2.2.pose.orientation r2.2.pose.position t.transform "ground" "vehicle"])
  else (s, m, [])

/-- One pass through the loop body of `PointCloudPub`, up to the call of
`CheckFinish`: the loop's two messages and what was published, in order. -/
def PointCloudPubBody (s : SlamDataPub) (mps : MapPoints) (vpMPs vpRefMPs : List MapPointPtr)
    (nowAll nowRef : Nat) (allMapPoints referenceMapPoints : PointCloud2) :
    (PointCloud2 × PointCloud2) × List Published :=
  let r := GetCurrentROSAllPointCloud s mps vpMPs vpRefMPs nowAll nowRef
    allMapPoints referenceMapPoints
  (r, [Published.point_cloud_all r.1, Published.point_cloud_ref r.2])

/-! ## Sequences of calls -/

/-- A call of a member function on the object, or one pass through the body
of one of the two publishing loops, with the arguments of the call. -/
inductive Call where
  | RunEntry : Call
  | RequestFinish : Call
  | CheckFinish : Call
  | SetFinish : Call
  | isFinished : Call
  | RequestStop : Call
  | isStopped : Call
  | Stop : Call
  | Release : Call
  | SetCurrentCameraPose (Tcw : Option Matrix4f) : Call
  | GetCurrentROSCameraMatrix (now : Nat) (cam_pose : PoseStamped) : Call
  | GetCurrentROSVehicleMatrix (now : Nat) (vehicle_pose : PoseStamped) : Call
  | GetCurrentROSTrajectories (currentTrajectory : List Matrix4f) (nowCam nowVehicle : Nat)
      (cam_path vehicle_path : Path) : Call
  | GetCurrentROSAllPointCloud (mps : MapPoints) (vpMPs vpRefMPs : List MapPointPtr)
      (nowAll nowRef : Nat) (all_point_cloud ref_point_cloud : PointCloud2) : Call
  | TrackingDataPubBody (m : TrackingMessages) (currentTrajectory : List Matrix4f)
      (t : TrackingClock) : Call
  | PointCloudPubBody (mps : MapPoints) (vpMPs vpRefMPs : List MapPointPtr)
      (nowAll nowRef : Nat) (allMapPoints referenceMapPoints : PointCloud2) : Call

/-- The state of the object after a call. -/
def stateAfter (c : Call) (s : SlamDataPub) : SlamDataPub :=
  match c with
  | Call.RunEntry => RunEntry s
  | Call.RequestFinish => RequestFinish s
  | Call.CheckFinish => s
  | Call.SetFinish => SetFinish s
  | Call.isFinished => s
  | Call.RequestStop => RequestStop s
  | Call.isStopped => s
  | Call.Stop => (Stop s).2
  | Call.Release => Release s
  | Call.SetCurrentCameraPose Tcw => SetCurrentCameraPose s Tcw
  | Call.GetCurrentROSCameraMatrix now cam_pose => (GetCurrentROSCameraMatrix s now cam_pose).1
  | Call.GetCurrentROSVehicleMatrix now vehicle_pose =>
    (GetCurrentROSVehicleMatrix s now vehicle_pose).1
  | Call.GetCurrentROSTrajectories _ _ _ _ _ => s
  | Call.GetCurrentROSAllPointCloud _ _ _ _ _ _ _ => s
  | Call.TrackingDataPubBody m currentTrajectory t => (TrackingDataPubBody s m currentTrajectory t).1
  | Call.PointCloudPubBody _ _ _ _ _ _ _ => s

/-- The state after a sequence of calls, made one after the other. -/
def runCalls (s : SlamDataPub) (cs : List Call) : SlamDataPub :=
  cs.foldl (fun s c => stateAfter c s) s

/-- Whether a call is a call of `SetCurrentCameraPose`. -/
def Call.isSetCurrentCameraPose : Call → Bool
  | Call.SetCurrentCameraPose _ => true
  | _ => false

/-- Whether a call is a call of `GetCurrentROSCameraMatrix`, made directly or
by a pass through the body of `TrackingDataPub`. -/
def Call.callsGetCurrentROSCameraMatrix : Call → Bool
  | Call.GetCurrentROSCameraMatrix _ _ => true
  | Call.TrackingDataPubBody _ _ _ => true
  | _ => false

/-- Whether a published item is a ground-camera pose. -/
def Published.isCameraPose : Published → Bool
  | Published.camera_pose _ => true
  | _ => false

/-- Whether a published item is a ground-vehicle pose. -/
def Published.isVehiclePose : Published → Bool
  | Published.vehicle_pose _ => true
  | _ => false

/-! ## Threads: the producer and the readers of the camera pose -/

/-- A thread that calls into the object: the one producer, which calls
`SetCurrentCameraPose`, or the reader number `i`, which calls
`GetCurrentROSCameraMatrix`. -/
inductive ThreadId where
  | producer : ThreadId
  | reader (i : Nat) : ThreadId
  deriving DecidableEq

/-- Where the producer stands in `SetCurrentCameraPose(Tcw)`: before taking
`mMutexCamera`, before and in the middle of the assignment
`mCameraPose = Tcw.clone()` (which is not atomic), before
`mbGetNewCamPose = true`, and before the lock is released at the end of the
function. -/
inductive ProducerPc where
  | idle : ProducerPc
  | lock (Tcw : Option Matrix4f) : ProducerPc
  | assign (Tcw : Option Matrix4f) : ProducerPc
  | assigning (Tcw : Option Matrix4f) : ProducerPc
  | setFlag : ProducerPc
  | unlock : ProducerPc

/-- Where a reader stands in `GetCurrentROSCameraMatrix(cam_pose)`, with its
local variables: at the test `!mCameraPose.empty()`; before taking
`mMutexCamera` in the inner block; at the read of `mCameraPose` for
`mCameraPose.inv()` and the product; at the store into `mCam2GroundNow_T`; at
the end of the inner block, where the lock is released; at the assignments to
`cam_pose`; at `mbGetNewCamPose = false`; and after the return, holding the
output argument.  `Tcw` records the matrix that was read (`read` after the
return, `none` when the call returned at the test).  The last two cases are a
read of `mCameraPose` for `inv()` made in the middle of its assignment, and
the state after `inv()` of an empty matrix has thrown. -/
inductive ReaderPc where
  | idle : ReaderPc
  | checkEmpty (now : Nat) (cam_pose : PoseStamped) : ReaderPc
  | lock (now : Nat) (cam_pose : PoseStamped) : ReaderPc
  | readPose (now : Nat) (cam_pose : PoseStamped) : ReaderPc
  | storeCache (now : Nat) (cam_pose : PoseStamped) (Tcw cam_pose2ground : Matrix4f) : ReaderPc
  | unlock (now : Nat) (cam_pose : PoseStamped) (Tcw cam_pose2ground : Matrix4f) : ReaderPc
  | writeOutput (now : Nat) (cam_pose : PoseStamped) (Tcw cam_pose2ground : Matrix4f) : ReaderPc
  | clearFlag (cam_pose : PoseStamped) (Tcw : Matrix4f) : ReaderPc
  | returned (cam_pose : PoseStamped) (read : Option Matrix4f) : ReaderPc
  | racedRead : ReaderPc
  | threw : ReaderPc

/-- The object, the owner of `mMutexCamera`, where every thread stands, the
list of the matrices passed to `SetCurrentCameraPose` so far, and the list of
the readers whose test `!mCameraPose.empty()` was made in the middle of an
assignment to `mCameraPose`. -/
structure Config where
  obj : SlamDataPub
  mMutexCamera : Option ThreadId
  producer : ProducerPc
  readers : Nat → ReaderPc
  passed : List (Option Matrix4f)
  racedTests : List Nat

/-- The configuration in which no call is under way. -/
def Config.initial (obj : SlamDataPub) : Config :=
  { obj := obj, mMutexCamera := none, producer := ProducerPc.idle,
    readers := fun _ => ReaderPc.idle, passed := [], racedTests := [] }

/-- The configuration with reader `i` moved to `pc`. -/
def Config.setReader (c : Config) (i : Nat) (pc : ReaderPc) : Config :=
  { c with readers := Function.update c.readers i pc }

/-- The next statement of the producer.  Taking a lock that is held changes
nothing: the thread waits. -/
def producerStep (c : Config) : Config :=
  match c.producer with
  | ProducerPc.idle => c
  | ProducerPc.lock Tcw =>
    match c.mMutexCamera with
    | none => { c with mMutexCamera := some ThreadId.producer, producer := ProducerPc.assign Tcw }
    | some _ => c
  | ProducerPc.assign Tcw => { c with producer := ProducerPc.assigning Tcw }
  | ProducerPc.assigning Tcw =>
    { c with obj := { c.obj with mCameraPose := Tcw }, producer := ProducerPc.setFlag }
  | ProducerPc.setFlag =>
    { c with obj := { c.obj with mbGetNewCamPose := true }, producer := ProducerPc.unlock }
  | ProducerPc.unlock => { c with mMutexCamera := none, producer := ProducerPc.idle }

/-- Whether the producer stands in the middle of the assignment to `mCameraPose`. -/
def ProducerPc.isAssigning : ProducerPc → Bool
  | ProducerPc.assigning _ => true
  | _ => false

/-- Whether the assignment to `mCameraPose` is under way. -/
def Config.assigning (c : Config) : Bool := c.producer.isAssigning

/-- The next statement of reader `i`.  A test `!mCameraPose.empty()` made in
the middle of an assignment to `mCameraPose` is recorded and has the outcome
`racy` (true when the matrix is seen as empty).  When `inv()` throws on an
empty matrix the exception leaves the inner block, whose `unique_lock`
releases `mMutexCamera`; the reader executes no further statement. -/
def readerStep (c : Config) (i : Nat) (racy : Bool) : Config :=
  match c.readers i with
  | ReaderPc.idle => c
  | ReaderPc.checkEmpty now cam_pose =>
    if c.assigning then
      { c with racedTests := i :: c.racedTests
               readers := Function.update c.readers i
                 (if racy then ReaderPc.returned cam_pose none
                  else ReaderPc.lock now cam_pose) }
    else
      match c.obj.mCameraPose with
      | none => c.setReader i (ReaderPc.returned cam_pose none)
      | some _ => c.setReader i (ReaderPc.lock now cam_pose)
  | ReaderPc.lock now cam_pose =>
    match c.mMutexCamera with
    | none =>
      { c with mMutexCamera := some (ThreadId.reader i)
               readers := Function.update c.readers i (ReaderPc.readPose now cam_pose) }
    | some _ => c
  | ReaderPc.readPose now cam_pose =>
    if c.assigning then c.setReader i ReaderPc.racedRead
    else
      match c.obj.mCameraPose with
      | none =>
        { c with mMutexCamera := none
                 readers := Function.update c.readers i ReaderPc.threw }
      | some Tcw =>
        c.setReader i (ReaderPc.storeCache now cam_pose Tcw (c.obj.mTrans_cam2ground * inverse Tcw))
  | ReaderPc.storeCache now cam_pose Tcw cam_pose2ground =>
    { c with obj := { c.obj with mCam2GroundNow_T := cam_pose2ground }
             readers := Function.update c.readers i
               (ReaderPc.unlock now cam_pose Tcw cam_pose2ground) }
  | ReaderPc.unlock now cam_pose Tcw cam_pose2ground =>
    { c with mMutexCamera := none
             readers := Function.update c.readers i
               (ReaderPc.writeOutput now cam_pose Tcw cam_pose2ground) }
  | ReaderPc.writeOutput now cam_pose Tcw cam_pose2ground =>
    c.setReader i (ReaderPc.clearFlag
      { header := { cam_pose.header with frame_id := "ground", stamp := now }
        pose := poseOfMatrix cam_pose2ground } Tcw)
  | ReaderPc.clearFlag cam_pose Tcw =>
    { c with obj := { c.obj with mbGetNewCamPose := false }
             readers := Function.update c.readers i (ReaderPc.returned cam_pose (some Tcw)) }
  | ReaderPc.returned _ _ => c
  | ReaderPc.racedRead => c
  | ReaderPc.threw => c

/-- What the scheduler lets happen next: the producer enters
`SetCurrentCameraPose(Tcw)`, the producer executes its next statement, reader
`i` enters `GetCurrentROSCameraMatrix(cam_pose)`, or reader `i` executes its
next statement (`racy` being the outcome of its test of `mCameraPose` should
the test be made in the middle of an assignment). -/
inductive Action where
  | callSet (Tcw : Option Matrix4f) : Action
  | producer : Action
  | callGet (i : Nat) (now : Nat) (cam_pose : PoseStamped) : Action
  | reader (i : Nat) (racy : Bool) : Action

/-- One action of the scheduler.  A call by a thread that is inside a call
changes nothing. -/
def step (c : Config) (a : Action) : Config :=
  match a with
  | Action.callSet Tcw =>
    match c.producer with
    | ProducerPc.idle => { c with producer := ProducerPc.lock Tcw, passed := Tcw :: c.passed }
    | _ => c
  | Action.producer => producerStep c
  | Action.callGet i now cam_pose =>
    match c.readers i with
    | ReaderPc.idle => c.setReader i (ReaderPc.checkEmpty now cam_pose)
    | ReaderPc.returned _ _ => c.setReader i (ReaderPc.checkEmpty now cam_pose)
    | _ => c
  | Action.reader i racy => readerStep c i racy

/-- An interleaving: the actions of a schedule, one after the other. -/
def interleave (c : Config) (schedule : List Action) : Config :=
  schedule.foldl step c

/-- Whether a reader stands between taking and releasing `mMutexCamera`. -/
def ReaderPc.holdsLock : ReaderPc → Bool
  | ReaderPc.readPose _ _ => true
  | ReaderPc.storeCache _ _ _ _ => true
  | ReaderPc.unlock _ _ _ _ => true
  | ReaderPc.racedRead => true
  | _ => false

/-- Whether the producer stands between taking and releasing `mMutexCamera`. -/
def ProducerPc.holdsLock : ProducerPc → Bool
  | ProducerPc.assign _ => true
  | ProducerPc.assigning _ => true
  | ProducerPc.setFlag => true
  | ProducerPc.unlock => true
  | _ => false

/-- The matrix a reader has read from `mCameraPose` in its call, if it has
read one. -/
def ReaderPc.matrixRead : ReaderPc → Option Matrix4f
  | ReaderPc.storeCache _ _ Tcw _ => some Tcw
  | ReaderPc.unlock _ _ Tcw _ => some Tcw
  | ReaderPc.writeOutput _ _ Tcw _ => some Tcw
  | ReaderPc.clearFlag _ Tcw => some Tcw
  | ReaderPc.returned _ read => read
  | _ => none

/-- The output argument `cam_pose` once the reader has assigned to it, or has
returned. -/
def ReaderPc.output : ReaderPc → Option PoseStamped
  | ReaderPc.clearFlag cam_pose _ => some cam_pose
  | ReaderPc.returned cam_pose _ => some cam_pose
  | _ => none

/-- The matrix `cam_pose2ground` a reader has computed in the call under way. -/
def ReaderPc.computed : ReaderPc → Option Matrix4f
  | ReaderPc.storeCache _ _ _ M => some M
  | ReaderPc.unlock _ _ _ M => some M
  | ReaderPc.writeOutput _ _ _ M => some M
  | _ => none

/-- The matrix the producer is about to assign or is assigning. -/
def ProducerPc.argument : ProducerPc → Option (Option Matrix4f)
  | ProducerPc.lock Tcw => some Tcw
  | ProducerPc.assign Tcw => some Tcw
  | ProducerPc.assigning Tcw => some Tcw
  | _ => none

/-- What holds in every configuration an interleaving reaches from a
configuration in which no call is under way, `mCameraPose` is `init` and
`mCam2GroundNow_T` is `cache0`. -/
structure Reachable (init : Option Matrix4f) (cache0 : Matrix4f) (c : Config) : Prop where
  producer_lock : c.producer.holdsLock = true ↔ c.mMutexCamera = some ThreadId.producer
  reader_lock : ∀ i, (c.readers i).holdsLock = true ↔ c.mMutexCamera = some (ThreadId.reader i)
  pose_mem : c.obj.mCameraPose ∈ init :: c.passed
  producer_mem : ∀ Tcw, c.producer.argument = some Tcw → Tcw ∈ c.passed
  read_mem : ∀ i Tcw, (c.readers i).matrixRead = some Tcw → some Tcw ∈ init :: c.passed
  not_raced : ∀ i, c.readers i ≠ ReaderPc.racedRead
  computed_eq : ∀ i Tcw M, (c.readers i).matrixRead = some Tcw → (c.readers i).computed = some M →
    M = c.obj.mTrans_cam2ground * inverse Tcw
  output_eq : ∀ i out Tcw, (c.readers i).output = some out → (c.readers i).matrixRead = some Tcw →
    out.pose = poseOfMatrix (c.obj.mTrans_cam2ground * inverse Tcw)
  cache_fresh : ∀ i now cam_pose Tcw M, c.readers i = ReaderPc.unlock now cam_pose Tcw M →
    c.obj.mCam2GroundNow_T = M
  cache_mem : c.obj.mCam2GroundNow_T = cache0 ∨
    ∃ Tcw, some Tcw ∈ init :: c.passed ∧
      c.obj.mCam2GroundNow_T = c.obj.mTrans_cam2ground * inverse Tcw

/-! ## Life cycle: theorems -/

theorem GetCurrentROSCameraMatrix_mbFinishRequested (s : SlamDataPub) (now : Nat)
    (cam_pose : PoseStamped) :
    (GetCurrentROSCameraMatrix s now cam_pose).1.mbFinishRequested = s.mbFinishRequested := by
  unfold GetCurrentROSCameraMatrix
  cases s.mCameraPose <;> rfl

theorem GetCurrentROSVehicleMatrix_mbFinishRequested (s : SlamDataPub) (now : Nat)
    (vehicle_pose : PoseStamped) :
    (GetCurrentROSVehicleMatrix s now vehicle_pose).1.mbFinishRequested = s.mbFinishRequested := by
  unfold GetCurrentROSVehicleMatrix
  cases s.mCameraPose <;> rfl

theorem TrackingDataPubBody_mbFinishRequested (s : SlamDataPub) (m : TrackingMessages)
    (currentTrajectory : List Matrix4f) (t : TrackingClock) :
    (TrackingDataPubBody s m currentTrajectory t).1.mbFinishRequested = s.mbFinishRequested := by
  unfold TrackingDataPubBody
  split
  · simp only [GetCurrentROSVehicleMatrix_mbFinishRequested,
      GetCurrentROSCameraMatrix_mbFinishRequested]
  · rfl

/-- No call clears `mbFinishRequested` once it is set. -/
theorem stateAfter_mbFinishRequested (c : Call) (s : SlamDataPub)
    (h : s.mbFinishRequested = true) : (stateAfter c s).mbFinishRequested = true := by
  cases c <;>
    simp only [stateAfter, RunEntry, RequestFinish, SetFinish, Release, SetCurrentCameraPose,
      GetCurrentROSCameraMatrix_mbFinishRequested, GetCurrentROSVehicleMatrix_mbFinishRequested,
      TrackingDataPubBody_mbFinishRequested, h]
  · unfold RequestStop
    split <;> simp [h]
  · simp [Stop, h]

theorem runCalls_mbFinishRequested (cs : List Call) (s : SlamDataPub)
    (h : s.mbFinishRequested = true) : (runCalls s cs).mbFinishRequested = true := by
  induction cs generalizing s with
  | nil => exact h
  | cons c cs ih => exact ih (stateAfter c s) (stateAfter_mbFinishRequested c s h)

/-- C1. Finish takes precedence over stop: from every state, after
`RequestFinish` and any further sequence of calls (any number of `RequestStop`,
`Stop`, `Release` and other calls, in any order), `Stop` returns false and
leaves the whole state, `mbStopped` and `mbStopRequested` included, as it was.
The state before `RequestFinish` is arbitrary, so any calls may have preceded. -/
theorem finish_takes_precedence_over_stop (s : SlamDataPub) (cs : List Call) :
    (Stop (runCalls (RequestFinish s) cs)).1 = false ∧
    (Stop (runCalls (RequestFinish s) cs)).2 = runCalls (RequestFinish s) cs ∧
    (Stop (runCalls (RequestFinish s) cs)).2.mbStopped =
      (runCalls (RequestFinish s) cs).mbStopped ∧
    (Stop (runCalls (RequestFinish s) cs)).2.mbStopRequested =
      (runCalls (RequestFinish s) cs).mbStopRequested := by
  have h : (runCalls (RequestFinish s) cs).mbFinishRequested = true :=
    runCalls_mbFinishRequested cs (RequestFinish s) rfl
  simp [Stop, h]

/-- C2, as stated, fails: on the freshly constructed object, on which finish
has not been requested, `isStopped` is already true, `RequestStop` changes
nothing and the `Stop` call that follows returns false. -/
theorem stop_refused_on_fresh_object :
    (SlamDataPub.construct false 0 0).mbFinishRequested = false ∧
    isStopped (SlamDataPub.construct false 0 0) = true ∧
    (RequestStop (SlamDataPub.construct false 0 0)).mbStopRequested = false ∧
    (Stop (RequestStop (SlamDataPub.construct false 0 0))).1 = false := by
  simp [SlamDataPub.construct, isStopped, RequestStop, Stop]

/-- C2, amended: in every state in which finish has not been requested and
`mbStopped` is false (as after the first statements of `Run`), `RequestStop`
followed by `Stop` makes that `Stop` return true, a second `Stop` with no
`RequestStop` in between returns false, and `isStopped` is false before the
granting `Stop` and true after it. -/
theorem stop_granted_once (s : SlamDataPub) (hF : s.mbFinishRequested = false)
    (hS : s.mbStopped = false) :
    isStopped s = false ∧
    isStopped (RequestStop s) = false ∧
    (Stop (RequestStop s)).1 = true ∧
    isStopped (Stop (RequestStop s)).2 = true ∧
    (Stop (Stop (RequestStop s)).2).1 = false := by
  simp [isStopped, RequestStop, Stop, hF, hS]

/-- The amended C2 on the object as `Run` leaves it after its first statements. -/
theorem stop_granted_once_witness :
    (RunEntry (SlamDataPub.construct false 0 0)).mbFinishRequested = false ∧
    (RunEntry (SlamDataPub.construct false 0 0)).mbStopped = false ∧
    (Stop (RequestStop (RunEntry (SlamDataPub.construct false 0 0)))).1 = true ∧
    (Stop (Stop (RequestStop (RunEntry (SlamDataPub.construct false 0 0)))).2).1 = false :=
  ⟨rfl, rfl,
   (stop_granted_once (RunEntry (SlamDataPub.construct false 0 0)) rfl rfl).2.2.1,
   (stop_granted_once (RunEntry (SlamDataPub.construct false 0 0)) rfl rfl).2.2.2.2⟩

/-! ## Point clouds: theorems -/

theorem mem_setInsert (a x : MapPointPtr) (l : List MapPointPtr) :
    a ∈ setInsert x l ↔ a = x ∨ a ∈ l := by
  induction l with
  | nil => simp [setInsert]
  | cons y ys ih =>
    unfold setInsert
    split
    · simp
    · split
      · next hxy => subst hxy; simp
      · simp only [List.mem_cons, ih]
        tauto

theorem mem_foldl_setInsert (a : MapPointPtr) (v sp : List MapPointPtr) :
    a ∈ v.foldl (fun sp x => setInsert x sp) sp ↔ a ∈ sp ∨ a ∈ v := by
  induction v generalizing sp with
  | nil => simp
  | cons x xs ih =>
    simp only [List.foldl_cons, ih, mem_setInsert, List.mem_cons]
    tauto

/-- The set built from a vector holds exactly the addresses in the vector. -/
theorem mem_setOfRange (a : MapPointPtr) (v : List MapPointPtr) :
    a ∈ setOfRange v ↔ a ∈ v := by
  simp [setOfRange, mem_foldl_setInsert]

/-- The first loop pushes, in order, one white point for every address of
`vpMPs` that is neither bad nor in the reference set. -/
theorem foldl_allPassStep (s : SlamDataPub) (mps : MapPoints) (spRefMPs : List MapPointPtr)
    (vpMPs : List MapPointPtr) (cloud_all : List CloudEntry) :
    vpMPs.foldl (allPassStep s mps spRefMPs) cloud_all =
      cloud_all ++ (vpMPs.filter (fun p => !(mps.isBad p || decide (p ∈ spRefMPs)))).map
        (fun p => (p, generalPoint s.mTrans_cam2ground (mps.GetWorldPos p))) := by
  induction vpMPs generalizing cloud_all with
  | nil => simp
  | cons p ps ih =>
    rw [List.foldl_cons, ih]
    by_cases h : (mps.isBad p || decide (p ∈ spRefMPs)) = true
    · rw [show allPassStep s mps spRefMPs cloud_all p = cloud_all from if_pos h,
        List.filter_cons_of_neg (by rw [h]; decide)]
    · rw [show allPassStep s mps spRefMPs cloud_all p =
          cloud_all ++ [(p, generalPoint s.mTrans_cam2ground (mps.GetWorldPos p))] from if_neg h,
        List.filter_cons_of_pos (by rw [Bool.eq_false_iff.2 h]; rfl)]
      simp

/-- The second loop pushes, in order, one red point for every address of the
reference set that is not bad. -/
theorem foldl_refPassStep (s : SlamDataPub) (mps : MapPoints)
    (spRefMPs : List MapPointPtr) (cloud_ref : List CloudEntry) :
    spRefMPs.foldl (refPassStep s mps) cloud_ref =
      cloud_ref ++ (spRefMPs.filter (fun p => !mps.isBad p)).map
        (fun p => (p, referencePoint s.mTrans_cam2ground (mps.GetWorldPos p))) := by
  induction spRefMPs generalizing cloud_ref with
  | nil => simp
  | cons p ps ih =>
    rw [List.foldl_cons, ih]
    by_cases h : mps.isBad p = true
    · rw [show refPassStep s mps cloud_ref p = cloud_ref from if_pos h,
        List.filter_cons_of_neg (by rw [h]; decide)]
    · rw [show refPassStep s mps cloud_ref p =
          cloud_ref ++ [(p, referencePoint s.mTrans_cam2ground (mps.GetWorldPos p))] from if_neg h,
        List.filter_cons_of_pos (by rw [Bool.eq_false_iff.2 h]; rfl)]
      simp

/-- An entry of the local general cloud comes from an address of `vpMPs` that
is not bad and is not in `vpRefMPs`. -/
theorem mem_localClouds_all (s : SlamDataPub) (mps : MapPoints)
    (vpMPs vpRefMPs : List MapPointPtr) (e : CloudEntry)
    (h : e ∈ (localClouds s mps vpMPs vpRefMPs).1) :
    e.1 ∈ vpMPs ∧ mps.isBad e.1 = false ∧ e.1 ∉ vpRefMPs := by
  unfold localClouds at h
  by_cases hv : vpMPs.isEmpty = true
  · simp [hv] at h
  · simp only [hv, Bool.false_eq_true, if_false, foldl_allPassStep, List.nil_append,
      List.mem_map, List.mem_filter] at h
    obtain ⟨p, ⟨hp, hc⟩, rfl⟩ := h
    simp [mem_setOfRange] at hc
    exact ⟨hp, hc.1, hc.2⟩

/-- An entry of the local reference cloud comes from an address of `vpRefMPs`
that is not bad. -/
theorem mem_localClouds_ref (s : SlamDataPub) (mps : MapPoints)
    (vpMPs vpRefMPs : List MapPointPtr) (e : CloudEntry)
    (h : e ∈ (localClouds s mps vpMPs vpRefMPs).2) :
    e.1 ∈ vpRefMPs ∧ mps.isBad e.1 = false := by
  unfold localClouds at h
  by_cases hv : vpMPs.isEmpty = true
  · simp [hv] at h
  · simp only [hv, Bool.false_eq_true, if_false, foldl_refPassStep, List.nil_append,
      List.mem_map, List.mem_filter] at h
    obtain ⟨p, ⟨hp, hc⟩, rfl⟩ := h
    simp at hc
    exact ⟨(mem_setOfRange p vpRefMPs).1 hp, hc⟩

/-- C3. For every vector of all map points, every vector of reference map
points and every map point address `p`: the general cloud and the reference
cloud that `GetCurrentROSAllPointCloud` builds never both hold an entry
computed from `p`, and hold none if `p` is bad.  The clouds written to the
output arguments are these local clouds, or the outputs are left alone (and
the local clouds are empty) when the vector of all map points is empty. -/
theorem classify_exclusive_and_valid (s : SlamDataPub) (mps : MapPoints)
    (vpMPs vpRefMPs : List MapPointPtr) (nowAll nowRef : Nat)
    (all_point_cloud ref_point_cloud : PointCloud2) (p : MapPointPtr) :
    ¬ ((∃ e ∈ (localClouds s mps vpMPs vpRefMPs).1, e.1 = p) ∧
       (∃ e ∈ (localClouds s mps vpMPs vpRefMPs).2, e.1 = p)) ∧
    (mps.isBad p = true →
      (∀ e ∈ (localClouds s mps vpMPs vpRefMPs).1, e.1 ≠ p) ∧
      (∀ e ∈ (localClouds s mps vpMPs vpRefMPs).2, e.1 ≠ p)) ∧
    (GetCurrentROSAllPointCloud s mps vpMPs vpRefMPs nowAll nowRef
        all_point_cloud ref_point_cloud =
      if vpMPs = [] then (all_point_cloud, ref_point_cloud)
      else (toROSCloud (localClouds s mps vpMPs vpRefMPs).1 nowAll,
            toROSCloud (localClouds s mps vpMPs vpRefMPs).2 nowRef)) ∧
    (vpMPs = [] → localClouds s mps vpMPs vpRefMPs = ([], [])) := by
  refine ⟨?_, ?_, ?_, ?_⟩
  · rintro ⟨⟨e1, he1, rfl⟩, ⟨e2, he2, h12⟩⟩
    have h1 := mem_localClouds_all s mps vpMPs vpRefMPs e1 he1
    have h2 := mem_localClouds_ref s mps vpMPs vpRefMPs e2 he2
    exact h1.2.2 (h12 ▸ h2.1)
  · intro hbad
    refine ⟨?_, ?_⟩
    · rintro e he rfl
      have h1 := mem_localClouds_all s mps vpMPs vpRefMPs e he
      rw [hbad] at h1
      exact Bool.noConfusion h1.2.1
    · rintro e he rfl
      have h2 := mem_localClouds_ref s mps vpMPs vpRefMPs e he
      rw [hbad] at h2
      exact Bool.noConfusion h2.2
  · unfold GetCurrentROSAllPointCloud
    cases vpMPs <;> simp
  · rintro rfl
    simp [localClouds]

/-- C3 on a map of four points: `1` is general, `2` is a reference point also
listed among all points, `3` is bad and listed in both vectors. -/
theorem classify_exclusive_and_valid_witness :
    (fun n => decide (n = 3)) 3 = true ∧
    (∀ e ∈ (localClouds (SlamDataPub.construct false 0 0)
        { isBad := fun n => decide (n = 3), GetWorldPos := fun _ => 0 } [1, 2, 3] [3, 2]).1,
      e.1 ≠ 3) ∧
    (∀ e ∈ (localClouds (SlamDataPub.construct false 0 0)
        { isBad := fun n => decide (n = 3), GetWorldPos := fun _ => 0 } [1, 2, 3] [3, 2]).2,
      e.1 ≠ 3) :=
  ⟨by decide,
   (classify_exclusive_and_valid (SlamDataPub.construct false 0 0)
     { isBad := fun n => decide (n = 3), GetWorldPos := fun _ => 0 } [1, 2, 3] [3, 2] 0 0
     PointCloud2.default PointCloud2.default 3).2.1 (by decide)⟩

/-- The addresses behind the two local clouds on the map of the witness of C3:
`1` alone is general, `2` alone is reference. -/
theorem localClouds_example :
    ((localClouds (SlamDataPub.construct false 0 0)
        { isBad := fun n => decide (n = 3), GetWorldPos := fun _ => 0 } [1, 2, 3] [3, 2]).1.map
      Prod.fst = [1]) ∧
    ((localClouds (SlamDataPub.construct false 0 0)
        { isBad := fun n => decide (n = 3), GetWorldPos := fun _ => 0 } [1, 2, 3] [3, 2]).2.map
      Prod.fst = [2]) := by
  simp [localClouds, allPassStep, refPassStep, setOfRange, setInsert]

/-- C4, as stated, fails: a first pass of the point-cloud loop on a map with
the one valid point `1` fills the general cloud, and a second pass on the then
empty map, handed the loop's messages as the first pass left them, publishes
that same one-point general cloud again. -/
theorem empty_map_republishes_previous_cloud :
    ((PointCloudPubBody (SlamDataPub.construct false 0 0)
        { isBad := fun _ => false, GetWorldPos := fun _ => 0 } [] [] 1 1
        (PointCloudPubBody (SlamDataPub.construct false 0 0)
          { isBad := fun _ => false, GetWorldPos := fun _ => 0 } [1] [] 0 0
          PointCloud2.default PointCloud2.default).1.1
        (PointCloudPubBody (SlamDataPub.construct false 0 0)
          { isBad := fun _ => false, GetWorldPos := fun _ => 0 } [1] [] 0 0
          PointCloud2.default PointCloud2.default).1.2).1.1.points.length = 1) ∧
    ((GetCurrentROSAllPointCloud (SlamDataPub.construct false 0 0)
        { isBad := fun _ => false, GetWorldPos := fun _ => 0 } [] [] 1 1
        { header := Header.default, points := [generalPoint 1 0] }
        PointCloud2.default).1.points ≠ []) := by
  simp [PointCloudPubBody, GetCurrentROSAllPointCloud, localClouds, allPassStep, refPassStep,
    setOfRange, toROSCloud]

/-- C4, amended: for every vector of reference points,
`GetCurrentROSAllPointCloud` called with an empty vector of all map points
writes nothing to its two output clouds; so for output clouds that held no
points before the call, the general cloud and the reference cloud hold none
after it and the pass of the point-cloud loop publishes two clouds without
points. -/
theorem classify_empty_leaves_outputs (s : SlamDataPub) (mps : MapPoints)
    (vpRefMPs : List MapPointPtr) (nowAll nowRef : Nat)
    (all_point_cloud ref_point_cloud : PointCloud2) (hAll hRef : Header) :
    GetCurrentROSAllPointCloud s mps [] vpRefMPs nowAll nowRef all_point_cloud ref_point_cloud =
      (all_point_cloud, ref_point_cloud) ∧
    PointCloudPubBody s mps [] vpRefMPs nowAll nowRef all_point_cloud ref_point_cloud =
      ((all_point_cloud, ref_point_cloud),
       [Published.point_cloud_all all_point_cloud, Published.point_cloud_ref ref_point_cloud]) ∧
    (GetCurrentROSAllPointCloud s mps [] vpRefMPs nowAll nowRef
        { header := hAll, points := [] } { header := hRef, points := [] }).1.points = [] ∧
    (GetCurrentROSAllPointCloud s mps [] vpRefMPs nowAll nowRef
        { header := hAll, points := [] } { header := hRef, points := [] }).2.points = [] ∧
    (PointCloudPubBody s mps [] vpRefMPs nowAll nowRef
        { header := hAll, points := [] } { header := hRef, points := [] }).2 =
      [Published.point_cloud_all { header := hAll, points := [] },
       Published.point_cloud_ref { header := hRef, points := [] }] := by
  simp [GetCurrentROSAllPointCloud, PointCloudPubBody]

/-! ## Trajectories: theorems -/

/-- The loop of `GetCurrentROSTrajectories` appends, in the order of the
history, one camera pose and one vehicle pose per history entry. -/
theorem foldl_trajectoryStep (s : SlamDataPub) (hist : List Matrix4f) (l : TrajectoryLocals) :
    (hist.foldl (trajectoryStep s) l).cam_path_temp.poses =
      l.cam_path_temp.poses ++ hist.map (fun mt =>
        { header := l.cam_pose.header, pose := poseOfMatrix (s.mTrans_cam2ground * mt) }) ∧
    (hist.foldl (trajectoryStep s) l).vehicle_path_temp.poses =
      l.vehicle_path_temp.poses ++ hist.map (fun mt =>
        { header := l.vehicle_pose.header
          pose := poseOfMatrix (s.mTrans_cam2ground * mt * inverse s.mTrans_cam2vehicle) }) := by
  induction hist generalizing l with
  | nil => simp
  | cons mt hist ih =>
    rw [List.foldl_cons]
    obtain ⟨h1, h2⟩ := ih (trajectoryStep s l mt)
    rw [h1, h2]
    simp [trajectoryStep]

/-- The two trajectories written by `GetCurrentROSTrajectories` when the
camera pose is not empty. -/
theorem GetCurrentROSTrajectories_poses (s : SlamDataPub) (T : Matrix4f)
    (h : s.mCameraPose = some T) (hist : List Matrix4f) (nowCam nowVehicle : Nat)
    (cam_path vehicle_path : Path) :
    (GetCurrentROSTrajectories s hist nowCam nowVehicle cam_path vehicle_path).1.poses =
      hist.map (fun mt =>
        { header := Header.default, pose := poseOfMatrix (s.mTrans_cam2ground * mt) }) ∧
    (GetCurrentROSTrajectories s hist nowCam nowVehicle cam_path vehicle_path).2.poses =
      hist.map (fun mt =>
        { header := Header.default
          pose := poseOfMatrix (s.mTrans_cam2ground * mt * inverse s.mTrans_cam2vehicle) }) := by
  unfold GetCurrentROSTrajectories
  rw [h]
  simp only
  constructor
  · rw [(foldl_trajectoryStep s hist _).1]
    simp [Path.default, PoseStamped.default]
  · rw [(foldl_trajectoryStep s hist _).2]
    simp [Path.default, PoseStamped.default]

/-- C5, as stated, fails: on the constructed object, whose camera pose is
empty, `GetCurrentROSTrajectories` handed a history of one entry leaves both
paths as they were, here without any pose. -/
theorem trajectories_untouched_on_empty_pose :
    (SlamDataPub.construct false 0 0).mCameraPose = none ∧
    ([1] : List Matrix4f).length = 1 ∧
    GetCurrentROSTrajectories (SlamDataPub.construct false 0 0) [1] 0 0
        Path.default Path.default = (Path.default, Path.default) ∧
    (GetCurrentROSTrajectories (SlamDataPub.construct false 0 0) [1] 0 0
        Path.default Path.default).1.poses.length = 0 ∧
    (GetCurrentROSTrajectories (SlamDataPub.construct false 0 0) [1] 0 0
        Path.default Path.default).2.poses.length = 0 :=
  ⟨rfl, rfl, rfl, rfl, rfl⟩

/-- C5, amended: in every state whose camera pose is not empty, for every
history handed over by the engine, the empty one included, the camera
trajectory and the vehicle trajectory that `GetCurrentROSTrajectories` writes
each have `hist.length` poses; the position of the `i`-th camera pose is the
translation column of `mTrans_cam2ground * hist[i]` (no inversion) and the
position of the `i`-th vehicle pose is the translation column of
`mTrans_cam2ground * hist[i] * inverse mTrans_cam2vehicle`; the order of the
history is kept, and an empty history gives two empty trajectories. -/
theorem project_preserves_length_and_order (s : SlamDataPub) (T : Matrix4f)
    (h : s.mCameraPose = some T) (hist : List Matrix4f) (nowCam nowVehicle : Nat)
    (cam_path vehicle_path : Path) :
    (GetCurrentROSTrajectories s hist nowCam nowVehicle cam_path vehicle_path).1.poses.length =
      hist.length ∧
    (GetCurrentROSTrajectories s hist nowCam nowVehicle cam_path vehicle_path).2.poses.length =
      hist.length ∧
    (∀ (i : Nat) (hi : i < hist.length),
      ((GetCurrentROSTrajectories s hist nowCam nowVehicle cam_path vehicle_path).1.poses[i]?).map
          (fun p => p.pose.position) =
        some (translation (s.mTrans_cam2ground * hist[i])) ∧
      ((GetCurrentROSTrajectories s hist nowCam nowVehicle cam_path vehicle_path).2.poses[i]?).map
          (fun p => p.pose.position) =
        some (translation (s.mTrans_cam2ground * hist[i] * inverse s.mTrans_cam2vehicle))) ∧
    (GetCurrentROSTrajectories s hist nowCam nowVehicle cam_path vehicle_path).1.poses.map
        (fun p => p.pose.position) =
      hist.map (fun mt => translation (s.mTrans_cam2ground * mt)) ∧
    (GetCurrentROSTrajectories s hist nowCam nowVehicle cam_path vehicle_path).2.poses.map
        (fun p => p.pose.position) =
      hist.map (fun mt =>
        translation (s.mTrans_cam2ground * mt * inverse s.mTrans_cam2vehicle)) ∧
    (hist = [] →
      (GetCurrentROSTrajectories s hist nowCam nowVehicle cam_path vehicle_path).1.poses = [] ∧
      (GetCurrentROSTrajectories s hist nowCam nowVehicle cam_path vehicle_path).2.poses = []) := by
  obtain ⟨h1, h2⟩ := GetCurrentROSTrajectories_poses s T h hist nowCam nowVehicle
    cam_path vehicle_path
  rw [h1, h2]
  refine ⟨by simp, by simp, ?_, ?_, ?_, ?_⟩
  · intro i hi
    simp [List.getElem?_map, List.getElem?_eq_getElem hi, poseOfMatrix]
  · simp [poseOfMatrix, Function.comp_def]
  · simp [poseOfMatrix, Function.comp_def]
  · rintro rfl
    simp

/-! ## Matrices: lemmas -/

theorem inverse_eq_inv (A : Matrix4f) : inverse A = A⁻¹ := by
  rw [Matrix.inv_def, Ring.inverse_eq_inv']
  rfl

theorem mul_inverse_cancel (A : Matrix4f) (h : A.det ≠ 0) : A * inverse A = 1 := by
  rw [inverse_eq_inv]
  exact Matrix.mul_nonsing_inv A (isUnit_iff_ne_zero.2 h)

theorem inverse_mul_cancel (A : Matrix4f) (h : A.det ≠ 0) : inverse A * A = 1 := by
  rw [inverse_eq_inv]
  exact Matrix.nonsing_inv_mul A (isUnit_iff_ne_zero.2 h)

theorem inverse_one : inverse 1 = 1 := by
  rw [inverse_eq_inv]
  exact inv_one

theorem homogeneous_mul (A B : Matrix3f) (a b : Vector3f) :
    homogeneous A a * homogeneous B b = homogeneous (A * B) (A.mulVec b + a) := by
  ext i j
  fin_cases i <;> fin_cases j <;>
    simp [homogeneous, Matrix.mul_apply, Fin.sum_univ_four, Fin.sum_univ_three, Matrix.mulVec,
      Matrix.dotProduct]

theorem homogeneous_one : homogeneous 1 0 = 1 := by
  ext i j
  fin_cases i <;> fin_cases j <;> simp [homogeneous, Matrix.one_apply] <;> rfl

theorem translation_mul_homogeneous (G : Matrix4f) (R : Matrix3f) (t : Vector3f) :
    translation (G * homogeneous R t) = (block3 G).mulVec t + translation G := by
  have h2 : Fin.castSucc (2 : Fin 3) = (2 : Fin 4) := rfl
  ext i
  fin_cases i <;>
    simp [translation, block3, homogeneous, Matrix.mul_apply, Fin.sum_univ_four,
      Fin.sum_univ_three, Matrix.mulVec, Matrix.dotProduct, h2]

/-- The inverse of a rigid transform: rotation `Rᵀ`, translation `-(Rᵀ t)`. -/
theorem inverse_homogeneous (R : Matrix3f) (t : Vector3f) (hR : R.transpose * R = 1) :
    inverse (homogeneous R t) = homogeneous R.transpose (-(R.transpose.mulVec t)) := by
  rw [inverse_eq_inv]
  apply Matrix.inv_eq_left_inv
  rw [homogeneous_mul, hR]
  simp [homogeneous_one]

theorem det_homogeneous_ne_zero (R : Matrix3f) (t : Vector3f) (hR : R.transpose * R = 1) :
    (homogeneous R t).det ≠ 0 := by
  apply Matrix.det_ne_zero_of_left_inverse
    (B := homogeneous R.transpose (-(R.transpose.mulVec t)))
  rw [homogeneous_mul, hR]
  simp [homogeneous_one]

theorem mInitCam2Ground_R_orthogonal :
    mInitCam2Ground_R.transpose * mInitCam2Ground_R = 1 := by
  ext i j
  simp only [Matrix.mul_apply, Fin.sum_univ_three, Matrix.transpose_apply, Matrix.one_apply]
  fin_cases i <;> fin_cases j <;> simp [mInitCam2Ground_R, Matrix.vecHead, Matrix.vecTail]

/-! ## Camera pose and vehicle pose: theorems -/

/-- C6. For every non-empty, invertible camera pose `T` (its `inverse` is then
a two-sided inverse), `GetCurrentROSCameraMatrix` stores
`mTrans_cam2ground * inverse T` in `mCam2GroundNow_T` and returns the
translation column of that product as position.  When `T` has rotation block
`R` (orthonormal) and translation `t`, that position is
`R_cg * (-(Rᵀ t)) + t_cg` for the rotation block `R_cg` and the translation
column `t_cg` of `mTrans_cam2ground`.  With the constructor's
`mTrans_cam2ground` and `T` the identity the position is `(0,0,0)`. -/
theorem camera_pose_is_inverse_composition (s : SlamDataPub) (T : Matrix4f)
    (h : s.mCameraPose = some T) (hT : T.det ≠ 0) (now : Nat) (cam_pose : PoseStamped) :
    (T * inverse T = 1 ∧ inverse T * T = 1) ∧
    (GetCurrentROSCameraMatrix s now cam_pose).1.mCam2GroundNow_T =
      s.mTrans_cam2ground * inverse T ∧
    (GetCurrentROSCameraMatrix s now cam_pose).2.pose.position =
      translation (s.mTrans_cam2ground * inverse T) ∧
    (∀ (R : Matrix3f) (t : Vector3f), T = homogeneous R t → R.transpose * R = 1 →
      (GetCurrentROSCameraMatrix s now cam_pose).2.pose.position =
        (block3 s.mTrans_cam2ground).mulVec (-(R.transpose.mulVec t)) +
          translation s.mTrans_cam2ground) ∧
    (T = 1 → s.mTrans_cam2ground = homogeneous mInitCam2Ground_R mInitCam2Ground_t →
      (GetCurrentROSCameraMatrix s now cam_pose).2.pose.position = 0) := by
  have hpos : (GetCurrentROSCameraMatrix s now cam_pose).2.pose.position =
      translation (s.mTrans_cam2ground * inverse T) := by
    unfold GetCurrentROSCameraMatrix
    rw [h]
    rfl
  refine ⟨⟨mul_inverse_cancel T hT, inverse_mul_cancel T hT⟩, ?_, hpos, ?_, ?_⟩
  · unfold GetCurrentROSCameraMatrix
    rw [h]
  · rintro R t rfl hR
    rw [hpos, inverse_homogeneous R t hR, translation_mul_homogeneous]
  · rintro rfl hG
    rw [hpos, inverse_one, mul_one, hG]
    have h2 : Fin.castSucc (2 : Fin 3) = (2 : Fin 4) := rfl
    ext i
    simp only [translation, homogeneous, mInitCam2Ground_t, Pi.zero_apply]
    fin_cases i <;> simp [h2]

/-- C6 at the constructor's `mTrans_cam2ground`, once for the identity pose and
once for the rigid pose with rotation `mInitCam2Ground_R` and translation
`(1,2,3)`, whose ground position is `(-1,-2,-3)`. -/
theorem camera_pose_is_inverse_composition_witness :
    ((1 : Matrix4f).det ≠ 0 ∧
      (GetCurrentROSCameraMatrix (SetCurrentCameraPose (SlamDataPub.construct false 0 0) (some 1))
        0 PoseStamped.default).2.pose.position = 0) ∧
    ((homogeneous mInitCam2Ground_R ![1, 2, 3]).det ≠ 0 ∧
      (GetCurrentROSCameraMatrix (SetCurrentCameraPose (SlamDataPub.construct false 0 0)
        (some (homogeneous mInitCam2Ground_R ![1, 2, 3]))) 0 PoseStamped.default).2.pose.position =
        ![-1, -2, -3]) :=
  ⟨⟨by simp,
    (camera_pose_is_inverse_composition
      (SetCurrentCameraPose (SlamDataPub.construct false 0 0) (some 1)) 1 rfl (by simp)
      0 PoseStamped.default).2.2.2.2 rfl rfl⟩,
   ⟨det_homogeneous_ne_zero _ _ mInitCam2Ground_R_orthogonal,
    ((camera_pose_is_inverse_composition
      (SetCurrentCameraPose (SlamDataPub.construct false 0 0)
        (some (homogeneous mInitCam2Ground_R ![1, 2, 3])))
      (homogeneous mInitCam2Ground_R ![1, 2, 3]) rfl
      (det_homogeneous_ne_zero _ _ mInitCam2Ground_R_orthogonal)
      0 PoseStamped.default).2.2.2.1 mInitCam2Ground_R ![1, 2, 3] rfl
      mInitCam2Ground_R_orthogonal).trans (by
        have h2 : Fin.castSucc (2 : Fin 3) = (2 : Fin 4) := rfl
        ext i
        simp only [SetCurrentCameraPose, SlamDataPub.construct, Matrix.mulVec,
          Matrix.dotProduct, Fin.sum_univ_three, Matrix.transpose_apply, Pi.add_apply,
          Pi.neg_apply, block3, translation, homogeneous, mInitCam2Ground_t, Pi.zero_apply]
        fin_cases i <;> simp [mInitCam2Ground_R, h2, Matrix.vecHead, Matrix.vecTail])⟩⟩

/-- The ground position of the camera for the constructor's
`mTrans_cam2ground` and the camera pose with rotation `mInitCam2Ground_R` and
translation `(1,2,3)`. -/
theorem translation_ground_example :
    translation (homogeneous mInitCam2Ground_R mInitCam2Ground_t *
      inverse (homogeneous mInitCam2Ground_R ![1, 2, 3])) = ![-1, -2, -3] := by
  rw [inverse_homogeneous _ _ mInitCam2Ground_R_orthogonal, translation_mul_homogeneous]
  have h2 : Fin.castSucc (2 : Fin 3) = (2 : Fin 4) := rfl
  ext i
  simp only [Matrix.mulVec, Matrix.dotProduct, Fin.sum_univ_three, Matrix.transpose_apply,
    Pi.add_apply, Pi.neg_apply, block3, translation, homogeneous, mInitCam2Ground_t,
    Pi.zero_apply]
  fin_cases i <;> simp [mInitCam2Ground_R, h2, Matrix.vecHead, Matrix.vecTail]

theorem mCam2Vehicle_R_orthogonal : mCam2Vehicle_R.transpose * mCam2Vehicle_R = 1 :=
  mInitCam2Ground_R_orthogonal

/-- The vehicle pose matrix for the constructor's two transforms and the
camera pose with rotation `mInitCam2Ground_R` and translation `(1,2,3)`. -/
theorem vehicle_matrix_example :
    homogeneous mInitCam2Ground_R mInitCam2Ground_t *
        inverse (homogeneous mInitCam2Ground_R ![1, 2, 3]) *
        inverse (homogeneous mCam2Vehicle_R mCam2Vehicle_t) =
      homogeneous mCam2Vehicle_R.transpose ![-1, -2, -3] := by
  have hRRt : mInitCam2Ground_R * mInitCam2Ground_R.transpose = 1 :=
    Matrix.mul_eq_one_comm.mp mInitCam2Ground_R_orthogonal
  rw [inverse_homogeneous _ _ mInitCam2Ground_R_orthogonal,
    inverse_homogeneous _ _ mCam2Vehicle_R_orthogonal, homogeneous_mul, homogeneous_mul, hRRt,
    Matrix.one_mul]
  simp only [mCam2Vehicle_t, mInitCam2Ground_t, Matrix.mulVec_zero, neg_zero, add_zero,
    Matrix.mulVec_neg, Matrix.mulVec_mulVec, hRRt, Matrix.one_mulVec, zero_add]
  ext i
  fin_cases i <;> simp

/-- C7. In every state with a non-empty camera pose,
`GetCurrentROSVehicleMatrix` returns as position the translation column (the
entries `(0,3)`, `(1,3)`, `(2,3)`) of
`mCam2GroundNow_T * inverse mTrans_cam2vehicle`, stores that product in
`mVehicle2GroundNow_T`, and leaves `mCam2GroundNow_T`, `mCameraPose` and
`mbGetNewCamPose` as they were.  Called right after
`GetCurrentROSCameraMatrix` on the camera pose `T`, the vehicle pose it stores
and returns is that of
`mTrans_cam2ground * inverse T * inverse mTrans_cam2vehicle`.  Here
`inverse mTrans_cam2vehicle` is the two-sided inverse of an invertible
`mTrans_cam2vehicle`, so the stored vehicle matrix times `mTrans_cam2vehicle`
gives back `mCam2GroundNow_T`; for the constructor's `mTrans_cam2vehicle` it
is the transform with rotation `mCam2Vehicle_Rᵀ` and no translation, and the
vehicle position is the translation column of `mCam2GroundNow_T`. -/
theorem vehicle_pose_from_cached_camera_pose (s : SlamDataPub) (T : Matrix4f)
    (h : s.mCameraPose = some T) (now : Nat) (vehicle_pose : PoseStamped) :
    (GetCurrentROSVehicleMatrix s now vehicle_pose).2.pose.position =
      translation (s.mCam2GroundNow_T * inverse s.mTrans_cam2vehicle) ∧
    (GetCurrentROSVehicleMatrix s now vehicle_pose).1.mVehicle2GroundNow_T =
      s.mCam2GroundNow_T * inverse s.mTrans_cam2vehicle ∧
    (GetCurrentROSVehicleMatrix s now vehicle_pose).1.mCam2GroundNow_T = s.mCam2GroundNow_T ∧
    (GetCurrentROSVehicleMatrix s now vehicle_pose).1.mCameraPose = s.mCameraPose ∧
    (GetCurrentROSVehicleMatrix s now vehicle_pose).1.mbGetNewCamPose = s.mbGetNewCamPose ∧
    (∀ (nowCam : Nat) (cam_pose : PoseStamped),
      (GetCurrentROSVehicleMatrix (GetCurrentROSCameraMatrix s nowCam cam_pose).1
          now vehicle_pose).1.mVehicle2GroundNow_T =
        s.mTrans_cam2ground * inverse T * inverse s.mTrans_cam2vehicle ∧
      (GetCurrentROSVehicleMatrix (GetCurrentROSCameraMatrix s nowCam cam_pose).1
          now vehicle_pose).2.pose =
        poseOfMatrix (s.mTrans_cam2ground * inverse T * inverse s.mTrans_cam2vehicle)) ∧
    ((GetCurrentROSVehicleMatrix s now vehicle_pose).2.pose.position 0 =
        (s.mCam2GroundNow_T * inverse s.mTrans_cam2vehicle) 0 3 ∧
      (GetCurrentROSVehicleMatrix s now vehicle_pose).2.pose.position 1 =
        (s.mCam2GroundNow_T * inverse s.mTrans_cam2vehicle) 1 3 ∧
      (GetCurrentROSVehicleMatrix s now vehicle_pose).2.pose.position 2 =
        (s.mCam2GroundNow_T * inverse s.mTrans_cam2vehicle) 2 3) ∧
    (s.mTrans_cam2vehicle.det ≠ 0 →
      s.mTrans_cam2vehicle * inverse s.mTrans_cam2vehicle = 1 ∧
      inverse s.mTrans_cam2vehicle * s.mTrans_cam2vehicle = 1 ∧
      (GetCurrentROSVehicleMatrix s now vehicle_pose).1.mVehicle2GroundNow_T *
        s.mTrans_cam2vehicle = s.mCam2GroundNow_T) ∧
    (s.mTrans_cam2vehicle = homogeneous mCam2Vehicle_R mCam2Vehicle_t →
      inverse s.mTrans_cam2vehicle = homogeneous mCam2Vehicle_R.transpose 0 ∧
      (GetCurrentROSVehicleMatrix s now vehicle_pose).2.pose.position =
        translation s.mCam2GroundNow_T) := by
  have hpos : (GetCurrentROSVehicleMatrix s now vehicle_pose).2.pose.position =
      translation (s.mCam2GroundNow_T * inverse s.mTrans_cam2vehicle) := by
    unfold GetCurrentROSVehicleMatrix
    rw [h]
    rfl
  have hmat : (GetCurrentROSVehicleMatrix s now vehicle_pose).1.mVehicle2GroundNow_T =
      s.mCam2GroundNow_T * inverse s.mTrans_cam2vehicle := by
    unfold GetCurrentROSVehicleMatrix
    rw [h]
  refine ⟨hpos, hmat, ?_, ?_, ?_, ?_, ?_, ?_, ?_⟩
  · unfold GetCurrentROSVehicleMatrix
    rw [h]
  · unfold GetCurrentROSVehicleMatrix
    rw [h]
  · unfold GetCurrentROSVehicleMatrix
    rw [h]
  · intro nowCam cam_pose
    unfold GetCurrentROSVehicleMatrix GetCurrentROSCameraMatrix
    rw [h]
    exact ⟨rfl, rfl⟩
  · rw [hpos]
    exact ⟨rfl, rfl, rfl⟩
  · intro hdet
    have hinv : inverse s.mTrans_cam2vehicle = s.mTrans_cam2vehicle⁻¹ := by
      rw [Matrix.inv_def, Ring.inverse_eq_inv']
      rfl
    have hunit : IsUnit s.mTrans_cam2vehicle.det := isUnit_iff_ne_zero.2 hdet
    refine ⟨?_, ?_, ?_⟩
    · rw [hinv]
      exact Matrix.mul_nonsing_inv _ hunit
    · rw [hinv]
      exact Matrix.nonsing_inv_mul _ hunit
    · rw [hmat, Matrix.mul_assoc, hinv, Matrix.nonsing_inv_mul _ hunit, Matrix.mul_one]
  · intro hV
    have hinv : inverse s.mTrans_cam2vehicle = homogeneous mCam2Vehicle_R.transpose 0 := by
      rw [hV, inverse_homogeneous _ _ mCam2Vehicle_R_orthogonal]
      simp [mCam2Vehicle_t]
    refine ⟨hinv, ?_⟩
    rw [hpos, hinv, translation_mul_homogeneous]
    simp

/-- C7 on the constructed object after `SetCurrentCameraPose` of the pose with
rotation `mInitCam2Ground_R` and translation `(1,2,3)` and
`GetCurrentROSCameraMatrix`: the stored vehicle matrix has rotation
`mCam2Vehicle_Rᵀ` and translation `(-1,-2,-3)`, the returned vehicle position
is `(-1,-2,-3)`, and the cached camera matrix is kept. -/
theorem vehicle_pose_from_cached_camera_pose_witness :
    (GetCurrentROSCameraMatrix (SetCurrentCameraPose (SlamDataPub.construct false 0 0)
        (some (homogeneous mInitCam2Ground_R ![1, 2, 3]))) 0 PoseStamped.default).1.mCameraPose =
      some (homogeneous mInitCam2Ground_R ![1, 2, 3]) ∧
    (GetCurrentROSVehicleMatrix
        (GetCurrentROSCameraMatrix (SetCurrentCameraPose (SlamDataPub.construct false 0 0)
          (some (homogeneous mInitCam2Ground_R ![1, 2, 3]))) 0 PoseStamped.default).1
        1 PoseStamped.default).1.mVehicle2GroundNow_T =
      homogeneous mCam2Vehicle_R.transpose ![-1, -2, -3] ∧
    (GetCurrentROSVehicleMatrix
        (GetCurrentROSCameraMatrix (SetCurrentCameraPose (SlamDataPub.construct false 0 0)
          (some (homogeneous mInitCam2Ground_R ![1, 2, 3]))) 0 PoseStamped.default).1
        1 PoseStamped.default).2.pose.position = ![-1, -2, -3] ∧
    (GetCurrentROSVehicleMatrix
        (GetCurrentROSCameraMatrix (SetCurrentCameraPose (SlamDataPub.construct false 0 0)
          (some (homogeneous mInitCam2Ground_R ![1, 2, 3]))) 0 PoseStamped.default).1
        1 PoseStamped.default).1.mCam2GroundNow_T =
      (GetCurrentROSCameraMatrix (SetCurrentCameraPose (SlamDataPub.construct false 0 0)
        (some (homogeneous mInitCam2Ground_R ![1, 2, 3]))) 0
        PoseStamped.default).1.mCam2GroundNow_T :=
  ⟨rfl,
   ((vehicle_pose_from_cached_camera_pose
      (SetCurrentCameraPose (SlamDataPub.construct false 0 0)
        (some (homogeneous mInitCam2Ground_R ![1, 2, 3])))
      (homogeneous mInitCam2Ground_R ![1, 2, 3]) rfl 1 PoseStamped.default).2.2.2.2.2.1
      0 PoseStamped.default).1.trans vehicle_matrix_example,
   ((vehicle_pose_from_cached_camera_pose
      (GetCurrentROSCameraMatrix (SetCurrentCameraPose (SlamDataPub.construct false 0 0)
        (some (homogeneous mInitCam2Ground_R ![1, 2, 3]))) 0 PoseStamped.default).1
      (homogeneous mInitCam2Ground_R ![1, 2, 3]) rfl 1 PoseStamped.default).2.2.2.2.2.2.2.2
      rfl).2.trans translation_ground_example,
   (vehicle_pose_from_cached_camera_pose
     (GetCurrentROSCameraMatrix (SetCurrentCameraPose (SlamDataPub.construct false 0 0)
       (some (homogeneous mInitCam2Ground_R ![1, 2, 3]))) 0 PoseStamped.default).1
     (homogeneous mInitCam2Ground_R ![1, 2, 3]) rfl 1 PoseStamped.default).2.2.1⟩


/-- The amended C5 on the constructed object with the identity as camera pose
and a history of two entries. -/
theorem project_preserves_length_and_order_witness :
    (SetCurrentCameraPose (SlamDataPub.construct false 0 0) (some 1)).mCameraPose = some 1 ∧
    (GetCurrentROSTrajectories (SetCurrentCameraPose (SlamDataPub.construct false 0 0) (some 1))
        [1, homogeneous mInitCam2Ground_R ![1, 2, 3]] 0 0 Path.default Path.default).1.poses.length
      = 2 ∧
    (GetCurrentROSTrajectories (SetCurrentCameraPose (SlamDataPub.construct false 0 0) (some 1))
        [1, homogeneous mInitCam2Ground_R ![1, 2, 3]] 0 0 Path.default Path.default).2.poses.length
      = 2 :=
  ⟨rfl,
   (project_preserves_length_and_order
     (SetCurrentCameraPose (SlamDataPub.construct false 0 0) (some 1)) 1 rfl
     [1, homogeneous mInitCam2Ground_R ![1, 2, 3]] 0 0 Path.default Path.default).1,
   (project_preserves_length_and_order
     (SetCurrentCameraPose (SlamDataPub.construct false 0 0) (some 1)) 1 rfl
     [1, homogeneous mInitCam2Ground_R ![1, 2, 3]] 0 0 Path.default Path.default).2.1⟩

/-! ## The new-pose flag: theorems -/

theorem GetCurrentROSCameraMatrix_flag_false (s : SlamDataPub) (now : Nat)
    (cam_pose : PoseStamped) (h : s.mbGetNewCamPose = false) :
    (GetCurrentROSCameraMatrix s now cam_pose).1.mbGetNewCamPose = false := by
  unfold GetCurrentROSCameraMatrix
  cases s.mCameraPose with
  | none => exact h
  | some T => rfl

theorem GetCurrentROSVehicleMatrix_flag (s : SlamDataPub) (now : Nat)
    (vehicle_pose : PoseStamped) :
    (GetCurrentROSVehicleMatrix s now vehicle_pose).1.mbGetNewCamPose = s.mbGetNewCamPose := by
  unfold GetCurrentROSVehicleMatrix
  cases s.mCameraPose <;> rfl

theorem TrackingDataPubBody_flag_false (s : SlamDataPub) (m : TrackingMessages)
    (currentTrajectory : List Matrix4f) (t : TrackingClock) (h : s.mbGetNewCamPose = false) :
    TrackingDataPubBody s m currentTrajectory t = (s, m, []) := by
  unfold TrackingDataPubBody
  rw [h]
  rfl

/-- A call other than `SetCurrentCameraPose` leaves a cleared flag cleared. -/
theorem stateAfter_flag_false (c : Call) (s : SlamDataPub)
    (hc : c.isSetCurrentCameraPose = false) (h : s.mbGetNewCamPose = false) :
    (stateAfter c s).mbGetNewCamPose = false := by
  cases c <;>
    simp only [stateAfter, RunEntry, RequestFinish, SetFinish, Release,
      GetCurrentROSCameraMatrix_flag_false, GetCurrentROSVehicleMatrix_flag,
      TrackingDataPubBody_flag_false, h]
  · unfold RequestStop
    split <;> simp [h]
  · unfold Stop
    split
    · exact h
    · split <;> simp [h]
  · exact absurd hc (by simp [Call.isSetCurrentCameraPose])

theorem runCalls_flag_false (cs : List Call) (s : SlamDataPub)
    (hcs : ∀ c ∈ cs, c.isSetCurrentCameraPose = false) (h : s.mbGetNewCamPose = false) :
    (runCalls s cs).mbGetNewCamPose = false := by
  induction cs generalizing s with
  | nil => exact h
  | cons c cs ih =>
    exact ih (stateAfter c s) (fun d hd => hcs d (List.mem_cons_of_mem c hd))
      (stateAfter_flag_false c s (hcs c (List.mem_cons_self c cs)) h)

/-- A call that does not call `GetCurrentROSCameraMatrix` leaves a set flag set. -/
theorem stateAfter_flag_true (c : Call) (s : SlamDataPub)
    (hc : c.callsGetCurrentROSCameraMatrix = false) (h : s.mbGetNewCamPose = true) :
    (stateAfter c s).mbGetNewCamPose = true := by
  cases c <;>
    simp only [stateAfter, RunEntry, RequestFinish, SetFinish, Release, SetCurrentCameraPose,
      GetCurrentROSVehicleMatrix_flag, h]
  · unfold RequestStop
    split <;> simp [h]
  · unfold Stop
    split
    · exact h
    · split <;> simp [h]
  · exact absurd hc (by simp [Call.callsGetCurrentROSCameraMatrix])
  · exact absurd hc (by simp [Call.callsGetCurrentROSCameraMatrix])

/-- C8, amended: the new-pose flag is set on write and cleared only on
consume, for calls that are made one after the other, each running to its end
before the next begins (so that no `SetCurrentCameraPose` runs while a pass of
the pose loop is under way).  From every state and for every non-empty pose
`P`, the pass of the pose loop that follows `SetCurrentCameraPose P` publishes
exactly one ground-camera pose (of `mTrans_cam2ground * inverse P`) and
exactly one ground-vehicle pose and leaves `mbGetNewCamPose` false; after any
further calls among which there is no `SetCurrentCameraPose` (further passes
of the loop included), a pass of the pose loop publishes nothing.  A call that
does not call `GetCurrentROSCameraMatrix` never changes the flag from true to
false, and a pass of the pose loop changes it exactly as its call of
`GetCurrentROSCameraMatrix` does. -/
theorem new_pose_flag_set_on_write_cleared_on_consume (s : SlamDataPub) (P : Matrix4f)
    (m : TrackingMessages) (currentTrajectory : List Matrix4f) (t : TrackingClock) :
    ((TrackingDataPubBody (SetCurrentCameraPose s (some P)) m currentTrajectory t).2.2.filter
        Published.isCameraPose =
      [Published.camera_pose
        { header := { m.camPose2Ground.header with frame_id := "ground", stamp := t.camPose }
          pose := poseOfMatrix (s.mTrans_cam2ground * inverse P) }]) ∧
    ((TrackingDataPubBody (SetCurrentCameraPose s (some P)) m currentTrajectory t).2.2.filter
        Published.isVehiclePose =
      [Published.vehicle_pose
        { header :=
            { m.vehiclePose2Ground.header with frame_id := "ground", stamp := t.vehiclePose }
          pose := poseOfMatrix
            (s.mTrans_cam2ground * inverse P * inverse s.mTrans_cam2vehicle) }]) ∧
    (TrackingDataPubBody (SetCurrentCameraPose s (some P)) m currentTrajectory t).1.mbGetNewCamPose
      = false ∧
    (∀ (cs : List Call), (∀ c ∈ cs, c.isSetCurrentCameraPose = false) →
      ∀ (m' : TrackingMessages) (currentTrajectory' : List Matrix4f) (t' : TrackingClock),
        (TrackingDataPubBody
          (runCalls (TrackingDataPubBody (SetCurrentCameraPose s (some P)) m
            currentTrajectory t).1 cs) m' currentTrajectory' t').2.2 = []) ∧
    (∀ (c : Call) (s0 : SlamDataPub), c.callsGetCurrentROSCameraMatrix = false →
      s0.mbGetNewCamPose = true → (stateAfter c s0).mbGetNewCamPose = true) ∧
    (∀ (s0 : SlamDataPub) (m0 : TrackingMessages) (traj0 : List Matrix4f) (t0 : TrackingClock),
      s0.mbGetNewCamPose = true →
      (TrackingDataPubBody s0 m0 traj0 t0).1.mbGetNewCamPose =
        (GetCurrentROSCameraMatrix s0 t0.camPose m0.camPose2Ground).1.mbGetNewCamPose) := by
  have hflag : (TrackingDataPubBody (SetCurrentCameraPose s (some P)) m
      currentTrajectory t).1.mbGetNewCamPose = false := by
    simp [TrackingDataPubBody, SetCurrentCameraPose, GetCurrentROSCameraMatrix,
      GetCurrentROSVehicleMatrix]
  refine ⟨?_, ?_, hflag, ?_, ?_, ?_⟩
  · simp [TrackingDataPubBody, SetCurrentCameraPose, GetCurrentROSCameraMatrix,
      Published.isCameraPose]
  · simp [TrackingDataPubBody, SetCurrentCameraPose, GetCurrentROSCameraMatrix,
      GetCurrentROSVehicleMatrix, Published.isVehiclePose]
  · intro cs hcs m' traj' t'
    rw [TrackingDataPubBody_flag_false _ m' traj' t' (runCalls_flag_false cs _ hcs hflag)]
  · intro c s0 hc h0
    exact stateAfter_flag_true c s0 hc h0
  · intro s0 m0 traj0 t0 h0
    simp [TrackingDataPubBody, h0, GetCurrentROSVehicleMatrix_flag]

/-- The amended C8 on the constructed object: after the identity pose is set
and one pass of the pose loop has run, a `RequestStop`, a second pass of the loop and a
call of `GetCurrentROSVehicleMatrix` follow, and a third pass then publishes
nothing; `Release` leaves a set flag set. -/
theorem new_pose_flag_set_on_write_cleared_on_consume_witness :
    (∀ c ∈ [Call.RequestStop,
        Call.TrackingDataPubBody TrackingMessages.default [1] ⟨1, 1, 1, 1, 1⟩,
        Call.GetCurrentROSVehicleMatrix 2 PoseStamped.default],
      c.isSetCurrentCameraPose = false) ∧
    (TrackingDataPubBody
      (runCalls (TrackingDataPubBody (SetCurrentCameraPose (SlamDataPub.construct false 0 0)
          (some 1)) TrackingMessages.default [1] ⟨0, 0, 0, 0, 0⟩).1
        [Call.RequestStop,
         Call.TrackingDataPubBody TrackingMessages.default [1] ⟨1, 1, 1, 1, 1⟩,
         Call.GetCurrentROSVehicleMatrix 2 PoseStamped.default])
      TrackingMessages.default [1] ⟨3, 3, 3, 3, 3⟩).2.2 = [] ∧
    (Call.callsGetCurrentROSCameraMatrix Call.Release = false ∧
      (SlamDataPub.construct true 0 0).mbGetNewCamPose = true ∧
      (stateAfter Call.Release (SlamDataPub.construct true 0 0)).mbGetNewCamPose = true) :=
  ⟨by simp [Call.isSetCurrentCameraPose],
   (new_pose_flag_set_on_write_cleared_on_consume (SlamDataPub.construct false 0 0) 1
     TrackingMessages.default [1] ⟨0, 0, 0, 0, 0⟩).2.2.2.1 _
     (by simp [Call.isSetCurrentCameraPose]) TrackingMessages.default [1] ⟨3, 3, 3, 3, 3⟩,
   rfl, rfl,
   (new_pose_flag_set_on_write_cleared_on_consume (SlamDataPub.construct false 0 0) 1
     TrackingMessages.default [1] ⟨0, 0, 0, 0, 0⟩).2.2.2.2.1 Call.Release
     (SlamDataPub.construct true 0 0) rfl rfl⟩

/-! ## The empty camera pose: theorems -/

/-- C9, as stated, fails: on the constructed object, after
`SetCurrentCameraPose` was given an empty matrix, the camera pose is empty and
the flag is set, and one pass of the pose loop publishes the loop's
(default-constructed) camera pose, vehicle pose and two paths and broadcasts a
transform with the quaternion `(0,0,0,0)`; the flag is still set afterwards. -/
theorem empty_pose_with_flag_set_publishes :
    (SetCurrentCameraPose (SlamDataPub.construct false 0 0) none).mCameraPose = none ∧
    (TrackingDataPubBody (SetCurrentCameraPose (SlamDataPub.construct false 0 0) none)
        TrackingMessages.default [] ⟨0, 0, 0, 0, 0⟩).2.2 =
      [Published.camera_pose PoseStamped.default, Published.vehicle_pose PoseStamped.default,
       Published.camera_path Path.default, Published.vehicle_path Path.default,
       Published.transform Quaternion.zero 0 0 "ground" "vehicle"] ∧
    (TrackingDataPubBody (SetCurrentCameraPose (SlamDataPub.construct false 0 0) none)
        TrackingMessages.default [] ⟨0, 0, 0, 0, 0⟩).1.mbGetNewCamPose = true := by
  refine ⟨rfl, ?_, ?_⟩
  · simp [TrackingDataPubBody, SetCurrentCameraPose, SlamDataPub.construct,
      GetCurrentROSCameraMatrix, GetCurrentROSVehicleMatrix, GetCurrentROSTrajectories,
      TrackingMessages.default, PoseStamped.default]
  · simp [TrackingDataPubBody, SetCurrentCameraPose, SlamDataPub.construct,
      GetCurrentROSCameraMatrix, GetCurrentROSVehicleMatrix]

/-- C9, amended: in every state whose camera pose is empty, a pass of the pose
loop made while `mbGetNewCamPose` is false publishes nothing (no camera pose,
no vehicle pose, no trajectory, no transform) and changes nothing; and
whatever the flag, `GetCurrentROSCameraMatrix`, `GetCurrentROSVehicleMatrix`
and `GetCurrentROSTrajectories` leave their output arguments and the whole
state (both cached matrices and the flag) unchanged, and so does a pass of the
pose loop with the state and the loop's messages. -/
theorem empty_pose_no_output (s : SlamDataPub) (h : s.mCameraPose = none)
    (m : TrackingMessages) (currentTrajectory : List Matrix4f) (t : TrackingClock)
    (now nowCam nowVehicle : Nat) (cam_pose vehicle_pose : PoseStamped)
    (cam_path vehicle_path : Path) :
    (s.mbGetNewCamPose = false → TrackingDataPubBody s m currentTrajectory t = (s, m, [])) ∧
    GetCurrentROSCameraMatrix s now cam_pose = (s, cam_pose) ∧
    GetCurrentROSVehicleMatrix s now vehicle_pose = (s, vehicle_pose) ∧
    GetCurrentROSTrajectories s currentTrajectory nowCam nowVehicle cam_path vehicle_path =
      (cam_path, vehicle_path) ∧
    (TrackingDataPubBody s m currentTrajectory t).1 = s ∧
    (TrackingDataPubBody s m currentTrajectory t).2.1 = m := by
  have h1 : ∀ (n : Nat) (p : PoseStamped), GetCurrentROSCameraMatrix s n p = (s, p) := by
    intro n p
    unfold GetCurrentROSCameraMatrix
    rw [h]
  have h2 : ∀ (n : Nat) (p : PoseStamped), GetCurrentROSVehicleMatrix s n p = (s, p) := by
    intro n p
    unfold GetCurrentROSVehicleMatrix
    rw [h]
  have h3 : ∀ (tr : List Matrix4f) (a b : Nat) (p q : Path),
      GetCurrentROSTrajectories s tr a b p q = (p, q) := by
    intro tr a b p q
    unfold GetCurrentROSTrajectories
    rw [h]
  refine ⟨TrackingDataPubBody_flag_false s m currentTrajectory t, h1 _ _, h2 _ _, h3 _ _ _ _ _,
    ?_, ?_⟩
  · unfold TrackingDataPubBody
    split
    · simp only [h1, h2]
    · rfl
  · unfold TrackingDataPubBody
    split
    · simp only [h1, h2, h3]
    · rfl

/-- The amended C9 on the constructed object, whose camera pose is empty, with
the flag false. -/
theorem empty_pose_no_output_witness :
    (SlamDataPub.construct false 0 0).mCameraPose = none ∧
    (SlamDataPub.construct false 0 0).mbGetNewCamPose = false ∧
    TrackingDataPubBody (SlamDataPub.construct false 0 0) TrackingMessages.default [1]
        ⟨0, 0, 0, 0, 0⟩ =
      (SlamDataPub.construct false 0 0, TrackingMessages.default, []) :=
  ⟨rfl, rfl,
   (empty_pose_no_output (SlamDataPub.construct false 0 0) rfl TrackingMessages.default [1]
     ⟨0, 0, 0, 0, 0⟩ 0 0 0 PoseStamped.default PoseStamped.default Path.default
     Path.default).1 rfl⟩

/-! ## Threads: theorems -/

theorem reachable_initial (obj : SlamDataPub) :
    Reachable obj.mCameraPose obj.mCam2GroundNow_T (Config.initial obj) := by
  constructor <;> simp [Config.initial, ProducerPc.holdsLock, ReaderPc.holdsLock,
    ProducerPc.argument, ReaderPc.matrixRead, ReaderPc.output]

/-- A step of the producer that keeps the lock as it is and changes neither
the readers, nor `mCam2GroundNow_T`, nor `mTrans_cam2ground`. -/
theorem reachable_producer_update (init : Option Matrix4f) (cache0 : Matrix4f) (c : Config)
    (obj : SlamDataPub) (pc : ProducerPc) (passed : List (Option Matrix4f))
    (h : Reachable init cache0 c)
    (hG : obj.mTrans_cam2ground = c.obj.mTrans_cam2ground)
    (hcache : obj.mCam2GroundNow_T = c.obj.mCam2GroundNow_T)
    (hlock : pc.holdsLock = c.producer.holdsLock)
    (hpassed : ∀ T, T ∈ c.passed → T ∈ passed)
    (hpose : obj.mCameraPose ∈ init :: passed)
    (harg : ∀ Tcw, pc.argument = some Tcw → Tcw ∈ passed) :
    Reachable init cache0 { c with obj := obj, producer := pc, passed := passed } := by
  have hmono : ∀ T, T ∈ init :: c.passed → T ∈ init :: passed := by
    intro T hT
    simp only [List.mem_cons] at hT ⊢
    rcases hT with hT | hT
    · exact Or.inl hT
    · exact Or.inr (hpassed T hT)
  constructor
  · show pc.holdsLock = true ↔ _
    rw [hlock]
    exact h.producer_lock
  · exact h.reader_lock
  · exact hpose
  · exact harg
  · intro i T hT
    exact hmono _ (h.read_mem i T hT)
  · exact h.not_raced
  · intro i T M
    show _ → _ → M = obj.mTrans_cam2ground * inverse T
    rw [hG]
    exact h.computed_eq i T M
  · intro i out T
    show _ → _ → out.pose = poseOfMatrix (obj.mTrans_cam2ground * inverse T)
    rw [hG]
    exact h.output_eq i out T
  · intro i now cam_pose T M
    show _ → obj.mCam2GroundNow_T = M
    rw [hcache]
    exact h.cache_fresh i now cam_pose T M
  · show obj.mCam2GroundNow_T = cache0 ∨
      ∃ T, some T ∈ init :: passed ∧ obj.mCam2GroundNow_T = obj.mTrans_cam2ground * inverse T
    rw [hcache, hG]
    rcases h.cache_mem with hc | ⟨T, hT, hc⟩
    · exact Or.inl hc
    · exact Or.inr ⟨T, hmono _ hT, hc⟩

theorem reachable_callSet (init : Option Matrix4f) (cache0 : Matrix4f) (c : Config)
    (Tcw : Option Matrix4f) (h : Reachable init cache0 c) :
    Reachable init cache0 (step c (Action.callSet Tcw)) := by
  unfold step
  cases hp : c.producer <;> simp only [] <;> try exact h
  refine reachable_producer_update init cache0 c c.obj _ _ h rfl rfl (by rw [hp]; rfl)
    (fun T hT => List.mem_cons_of_mem _ hT) ?_ ?_
  · have := h.pose_mem
    simp only [List.mem_cons] at this ⊢
    tauto
  · intro T hT
    simp [ProducerPc.argument] at hT
    simp [hT]

theorem reachable_producer (init : Option Matrix4f) (cache0 : Matrix4f) (c : Config)
    (h : Reachable init cache0 c) : Reachable init cache0 (step c Action.producer) := by
  unfold step producerStep
  have h1 := h.producer_lock
  have h2 := h.reader_lock
  have h3 := h.producer_mem
  cases hp : c.producer <;> rw [hp] at h1 h3 <;> simp only []
  · -- idle
    exact h
  · -- lock
    rename_i Tcw
    cases hm : c.mMutexCamera <;> simp only []
    · constructor
      · simp [ProducerPc.holdsLock]
      · intro i
        have := h2 i
        rw [hm] at this
        simp at this
        simp [this]
      · exact h.pose_mem
      · intro T hT
        exact h3 T (by simpa [ProducerPc.argument] using hT)
      · exact h.read_mem
      · exact h.not_raced
      · exact h.computed_eq
      · exact h.output_eq
      · exact h.cache_fresh
      · exact h.cache_mem
    · exact h
  · -- assign
    exact reachable_producer_update init cache0 c c.obj _ c.passed h rfl rfl (by rw [hp]; rfl)
      (fun T hT => hT) h.pose_mem
      (fun T hT => h3 T (by simpa [ProducerPc.argument] using hT))
  · -- assigning
    rename_i Tcw
    refine reachable_producer_update init cache0 c _ _ c.passed h rfl rfl (by rw [hp]; rfl)
      (fun T hT => hT) ?_ ?_
    · have := h3 Tcw (by simp [ProducerPc.argument])
      simp [this]
    · intro T hT
      simp [ProducerPc.argument] at hT
  · -- setFlag
    refine reachable_producer_update init cache0 c _ _ c.passed h rfl rfl (by rw [hp]; rfl)
      (fun T hT => hT) h.pose_mem ?_
    intro T hT
    simp [ProducerPc.argument] at hT
  · -- unlock
    have hm : c.mMutexCamera = some ThreadId.producer := h1.1 (by simp [ProducerPc.holdsLock])
    constructor
    · simp [ProducerPc.holdsLock]
    · intro i
      have := h2 i
      rw [hm] at this
      simp at this
      simp [this]
    · exact h.pose_mem
    · intro T hT
      simp [ProducerPc.argument] at hT
    · exact h.read_mem
    · exact h.not_raced
    · exact h.computed_eq
    · exact h.output_eq
    · exact h.cache_fresh
    · exact h.cache_mem

/-- A step of reader `i` that keeps the lock as it is, changes neither
`mCameraPose`, nor `mTrans_cam2ground`, nor `mCam2GroundNow_T`, and moves the
reader to `pc`. -/
theorem reachable_update (init : Option Matrix4f) (cache0 : Matrix4f) (c : Config) (i : Nat)
    (pc : ReaderPc) (obj : SlamDataPub) (raced : List Nat) (h : Reachable init cache0 c)
    (hpose : obj.mCameraPose = c.obj.mCameraPose)
    (hG : obj.mTrans_cam2ground = c.obj.mTrans_cam2ground)
    (hcache : obj.mCam2GroundNow_T = c.obj.mCam2GroundNow_T)
    (hlock : pc.holdsLock = (c.readers i).holdsLock)
    (hraced : pc ≠ ReaderPc.racedRead)
    (hmem : ∀ Tcw, pc.matrixRead = some Tcw → some Tcw ∈ init :: c.passed)
    (hcomp : ∀ Tcw M, pc.matrixRead = some Tcw → pc.computed = some M →
      M = c.obj.mTrans_cam2ground * inverse Tcw)
    (hout : ∀ out Tcw, pc.output = some out → pc.matrixRead = some Tcw →
      out.pose = poseOfMatrix (c.obj.mTrans_cam2ground * inverse Tcw))
    (hfresh : ∀ now cam_pose Tcw M, pc = ReaderPc.unlock now cam_pose Tcw M →
      c.obj.mCam2GroundNow_T = M) :
    Reachable init cache0
      { c with obj := obj, readers := Function.update c.readers i pc, racedTests := raced } := by
  constructor
  · exact h.producer_lock
  · intro j
    by_cases hj : j = i
    · subst hj
      simp only [Function.update_same]
      rw [hlock]
      exact h.reader_lock j
    · simp only [Function.update_noteq hj]
      exact h.reader_lock j
  · show obj.mCameraPose ∈ init :: c.passed
    rw [hpose]
    exact h.pose_mem
  · exact h.producer_mem
  · intro j Tcw
    by_cases hj : j = i
    · subst hj
      simp only [Function.update_same]
      exact hmem Tcw
    · simp only [Function.update_noteq hj]
      exact h.read_mem j Tcw
  · intro j
    by_cases hj : j = i
    · subst hj
      simp only [Function.update_same]
      exact hraced
    · simp only [Function.update_noteq hj]
      exact h.not_raced j
  · intro j Tcw M
    show _ → _ → M = obj.mTrans_cam2ground * inverse Tcw
    rw [hG]
    by_cases hj : j = i
    · subst hj
      simp only [Function.update_same]
      exact hcomp Tcw M
    · simp only [Function.update_noteq hj]
      exact h.computed_eq j Tcw M
  · intro j out Tcw
    show _ → _ → out.pose = poseOfMatrix (obj.mTrans_cam2ground * inverse Tcw)
    rw [hG]
    by_cases hj : j = i
    · subst hj
      simp only [Function.update_same]
      exact hout out Tcw
    · simp only [Function.update_noteq hj]
      exact h.output_eq j out Tcw
  · intro j now cam_pose Tcw M
    show _ → obj.mCam2GroundNow_T = M
    rw [hcache]
    by_cases hj : j = i
    · subst hj
      simp only [Function.update_same]
      exact hfresh now cam_pose Tcw M
    · simp only [Function.update_noteq hj]
      exact h.cache_fresh j now cam_pose Tcw M
  · show obj.mCam2GroundNow_T = cache0 ∨
      ∃ T, some T ∈ init :: c.passed ∧ obj.mCam2GroundNow_T = obj.mTrans_cam2ground * inverse T
    rw [hcache, hG]
    exact h.cache_mem

/-- A step in which reader `i`, not holding the lock, takes the free lock, or,
holding it, releases it, and moves to `pc`; nothing else changes. -/
theorem reachable_lock_change (init : Option Matrix4f) (cache0 : Matrix4f) (c : Config)
    (i : Nat) (pc : ReaderPc) (m : Option ThreadId) (h : Reachable init cache0 c)
    (hm : (c.mMutexCamera = none ∧ m = some (ThreadId.reader i) ∧ pc.holdsLock = true) ∨
      (c.mMutexCamera = some (ThreadId.reader i) ∧ m = none ∧ pc.holdsLock = false))
    (hraced : pc ≠ ReaderPc.racedRead)
    (hmem : ∀ Tcw, pc.matrixRead = some Tcw → some Tcw ∈ init :: c.passed)
    (hcomp : ∀ Tcw M, pc.matrixRead = some Tcw → pc.computed = some M →
      M = c.obj.mTrans_cam2ground * inverse Tcw)
    (hout : ∀ out Tcw, pc.output = some out → pc.matrixRead = some Tcw →
      out.pose = poseOfMatrix (c.obj.mTrans_cam2ground * inverse Tcw))
    (hfresh : ∀ now cam_pose Tcw M, pc = ReaderPc.unlock now cam_pose Tcw M →
      c.obj.mCam2GroundNow_T = M) :
    Reachable init cache0
      { c with mMutexCamera := m, readers := Function.update c.readers i pc } := by
  have hp := h.producer_lock
  have hl := h.reader_lock
  constructor
  · show c.producer.holdsLock = true ↔ m = some ThreadId.producer
    rcases hm with ⟨h1, h2, _⟩ | ⟨h1, h2, _⟩
    · rw [h1] at hp
      rw [h2]
      simpa using hp
    · rw [h1] at hp
      rw [h2]
      simpa using hp
  · intro j
    show (Function.update c.readers i pc j).holdsLock = true ↔ m = some (ThreadId.reader j)
    by_cases hj : j = i
    · subst hj
      simp only [Function.update_same]
      rcases hm with ⟨_, h2, h3⟩ | ⟨_, h2, h3⟩
      · rw [h2, h3]
        simp
      · rw [h2, h3]
        simp
    · simp only [Function.update_noteq hj]
      have := hl j
      rcases hm with ⟨h1, h2, _⟩ | ⟨h1, h2, _⟩
      · rw [h1] at this
        rw [h2]
        simp at this
        simp [this]
        exact fun e => hj e.symm
      · rw [h1] at this
        rw [h2]
        simp at this
        simp [this]
        exact fun e => hj e.symm
  · exact h.pose_mem
  · exact h.producer_mem
  · intro j Tcw
    by_cases hj : j = i
    · subst hj
      simp only [Function.update_same]
      exact hmem Tcw
    · simp only [Function.update_noteq hj]
      exact h.read_mem j Tcw
  · intro j
    by_cases hj : j = i
    · subst hj
      simp only [Function.update_same]
      exact hraced
    · simp only [Function.update_noteq hj]
      exact h.not_raced j
  · intro j Tcw M
    by_cases hj : j = i
    · subst hj
      simp only [Function.update_same]
      exact hcomp Tcw M
    · simp only [Function.update_noteq hj]
      exact h.computed_eq j Tcw M
  · intro j out Tcw
    by_cases hj : j = i
    · subst hj
      simp only [Function.update_same]
      exact hout out Tcw
    · simp only [Function.update_noteq hj]
      exact h.output_eq j out Tcw
  · intro j now cam_pose Tcw M
    by_cases hj : j = i
    · subst hj
      simp only [Function.update_same]
      exact hfresh now cam_pose Tcw M
    · simp only [Function.update_noteq hj]
      exact h.cache_fresh j now cam_pose Tcw M
  · exact h.cache_mem

theorem reachable_callGet (init : Option Matrix4f) (cache0 : Matrix4f) (c : Config) (i now : Nat)
    (cam_pose : PoseStamped) (h : Reachable init cache0 c) :
    Reachable init cache0 (step c (Action.callGet i now cam_pose)) := by
  unfold step
  simp only []
  split
  · next hr =>
    exact reachable_update init cache0 c i _ c.obj c.racedTests h rfl rfl rfl (by rw [hr]; rfl)
      (by intro hc; cases hc) (by intro T hT; cases hT) (by intro T M hT; cases hT)
      (by intro o T ho; cases ho) (by intro a b T M hc; cases hc)
  · next hr =>
    exact reachable_update init cache0 c i _ c.obj c.racedTests h rfl rfl rfl (by rw [hr]; rfl)
      (by intro hc; cases hc) (by intro T hT; cases hT) (by intro T M hT; cases hT)
      (by intro o T ho; cases ho) (by intro a b T M hc; cases hc)
  · exact h

/-- While a reader holds the lock, the assignment to `mCameraPose` is not
under way. -/
theorem not_assigning_of_holdsLock (init : Option Matrix4f) (cache0 : Matrix4f) (c : Config)
    (i : Nat) (h : Reachable init cache0 c) (hi : (c.readers i).holdsLock = true) :
    c.assigning = false := by
  have hm := (h.reader_lock i).1 hi
  have hp := h.producer_lock
  rw [hm] at hp
  unfold Config.assigning
  cases hpc : c.producer <;> simp only [ProducerPc.isAssigning]
  rw [hpc] at hp
  simp [ProducerPc.holdsLock] at hp

theorem reachable_reader (init : Option Matrix4f) (cache0 : Matrix4f) (c : Config) (i : Nat)
    (racy : Bool) (h : Reachable init cache0 c) :
    Reachable init cache0 (step c (Action.reader i racy)) := by
  unfold step readerStep
  cases hr : c.readers i <;> simp only [hr]
  · exact h
  · -- checkEmpty
    split
    · cases racy
      · exact reachable_update init cache0 c i _ c.obj _ h rfl rfl rfl (by rw [hr]; rfl)
          (by intro hc; cases hc) (by intro T hT; cases hT) (by intro T M hT; cases hT)
          (by intro o T ho; cases ho) (by intro a b T M hc; cases hc)
      · exact reachable_update init cache0 c i _ c.obj _ h rfl rfl rfl (by rw [hr]; rfl)
          (by intro hc; cases hc) (by intro T hT; cases hT) (by intro T M hT; cases hT)
          (by intro o T ho hT; cases hT) (by intro a b T M hc; cases hc)
    · split
      · exact reachable_update init cache0 c i _ c.obj c.racedTests h rfl rfl rfl
          (by rw [hr]; rfl)
          (by intro hc; cases hc) (by intro T hT; cases hT) (by intro T M hT; cases hT)
          (by intro o T ho hT; cases hT) (by intro a b T M hc; cases hc)
      · exact reachable_update init cache0 c i _ c.obj c.racedTests h rfl rfl rfl
          (by rw [hr]; rfl)
          (by intro hc; cases hc) (by intro T hT; cases hT) (by intro T M hT; cases hT)
          (by intro o T ho; cases ho) (by intro a b T M hc; cases hc)
  · -- lock
    rename_i now cam_pose
    cases hm : c.mMutexCamera <;> simp only []
    · exact reachable_lock_change init cache0 c i _ _ h (Or.inl ⟨hm, rfl, rfl⟩)
        (by intro hc; cases hc) (by intro T hT; cases hT) (by intro T M hT; cases hT)
        (by intro o T ho; cases ho) (by intro a b T M hc; cases hc)
    · exact h
  · -- readPose
    have hl : (c.readers i).holdsLock = true := by rw [hr]; rfl
    have hna := not_assigning_of_holdsLock init cache0 c i h hl
    rw [hna]
    simp only [Bool.false_eq_true, if_false]
    have hpm := h.pose_mem
    cases hcp : c.obj.mCameraPose <;> simp only []
    · exact reachable_lock_change init cache0 c i _ _ h
        (Or.inr ⟨(h.reader_lock i).1 hl, rfl, rfl⟩)
        (by intro hc; cases hc) (by intro T hT; cases hT) (by intro T M hT; cases hT)
        (by intro o T ho; cases ho) (by intro a b T M hc; cases hc)
    · rename_i Tcw
      rw [hcp] at hpm
      refine reachable_update init cache0 c i _ c.obj c.racedTests h rfl rfl rfl
        (by rw [hr]; rfl) (by intro hc; cases hc) ?_ ?_
        (by intro o T ho; cases ho) (by intro a b T M hc; cases hc)
      · intro T hT
        simp [ReaderPc.matrixRead] at hT
        subst hT
        exact hpm
      · intro T M hT hM
        simp [ReaderPc.matrixRead] at hT
        simp [ReaderPc.computed] at hM
        subst hT
        subst hM
        rfl
  · -- storeCache
    rename_i now cam_pose Tcw M
    have hl : (c.readers i).holdsLock = true := by rw [hr]; rfl
    have hmx := (h.reader_lock i).1 hl
    have hrm := h.read_mem i Tcw (by rw [hr]; rfl)
    have hce := h.computed_eq i Tcw M (by rw [hr]; rfl) (by rw [hr]; rfl)
    constructor
    · exact h.producer_lock
    · intro j
      by_cases hj : j = i
      · subst hj
        simp only [Function.update_same]
        rw [← h.reader_lock j, hr]
        rfl
      · simp only [Function.update_noteq hj]
        exact h.reader_lock j
    · exact h.pose_mem
    · exact h.producer_mem
    · intro j T
      by_cases hj : j = i
      · subst hj
        simp only [Function.update_same]
        intro hT
        simp [ReaderPc.matrixRead] at hT
        subst hT
        exact hrm
      · simp only [Function.update_noteq hj]
        exact h.read_mem j T
    · intro j
      by_cases hj : j = i
      · subst hj
        simp
      · simp only [Function.update_noteq hj]
        exact h.not_raced j
    · intro j T M'
      by_cases hj : j = i
      · subst hj
        simp only [Function.update_same]
        intro hT hM
        simp [ReaderPc.matrixRead] at hT
        simp [ReaderPc.computed] at hM
        subst hT
        subst hM
        exact hce
      · simp only [Function.update_noteq hj]
        exact h.computed_eq j T M'
    · intro j out T
      by_cases hj : j = i
      · subst hj
        simp only [Function.update_same]
        intro ho
        cases ho
      · simp only [Function.update_noteq hj]
        exact h.output_eq j out T
    · intro j now' cam_pose' T M'
      by_cases hj : j = i
      · subst hj
        simp only [Function.update_same]
        intro hc
        simp at hc
        exact hc.2.2.2
      · simp only [Function.update_noteq hj]
        intro hc
        exfalso
        have hlj : (c.readers j).holdsLock = true := by rw [hc]; rfl
        have := (h.reader_lock j).1 hlj
        rw [hmx] at this
        simp at this
        exact hj this.symm
    · exact Or.inr ⟨Tcw, hrm, hce⟩
  · -- unlock
    rename_i now cam_pose Tcw M
    have hl : (c.readers i).holdsLock = true := by rw [hr]; rfl
    have hrm := h.read_mem i Tcw (by rw [hr]; rfl)
    have hce := h.computed_eq i Tcw M (by rw [hr]; rfl) (by rw [hr]; rfl)
    refine reachable_lock_change init cache0 c i _ _ h
      (Or.inr ⟨(h.reader_lock i).1 hl, rfl, rfl⟩)
      (by intro hc; cases hc) ?_ ?_ (by intro o T ho; cases ho)
      (by intro a b T M hc; cases hc)
    · intro T hT
      simp [ReaderPc.matrixRead] at hT
      subst hT
      exact hrm
    · intro T M' hT hM
      simp [ReaderPc.matrixRead] at hT
      simp [ReaderPc.computed] at hM
      subst hT
      subst hM
      exact hce
  · -- writeOutput
    rename_i now cam_pose Tcw M
    have hrm := h.read_mem i Tcw (by rw [hr]; rfl)
    have hce := h.computed_eq i Tcw M (by rw [hr]; rfl) (by rw [hr]; rfl)
    refine reachable_update init cache0 c i _ c.obj c.racedTests h rfl rfl rfl
      (by rw [hr]; rfl) (by intro hc; cases hc) ?_ (by intro T M hT hM; cases hM) ?_
      (by intro a b T M hc; cases hc)
    · intro T hT
      simp [ReaderPc.matrixRead] at hT
      subst hT
      exact hrm
    · intro out T ho hT
      simp [ReaderPc.matrixRead] at hT
      simp [ReaderPc.output] at ho
      subst hT
      subst ho
      rw [hce]
  · -- clearFlag
    rename_i out Tcw
    have hrm := h.read_mem i Tcw (by rw [hr]; rfl)
    have hoe := h.output_eq i out Tcw (by rw [hr]; rfl) (by rw [hr]; rfl)
    refine reachable_update init cache0 c i _ _ c.racedTests h rfl rfl rfl
      (by rw [hr]; rfl) (by intro hc; cases hc) ?_ (by intro T M hT hM; cases hM) ?_
      (by intro a b T M hc; cases hc)
    · intro T hT
      simp [ReaderPc.matrixRead] at hT
      subst hT
      exact hrm
    · intro out' T ho hT
      simp [ReaderPc.matrixRead] at hT
      simp [ReaderPc.output] at ho
      subst hT
      subst ho
      exact hoe
  · exact h
  · exact h
  · exact h

theorem reachable_step (init : Option Matrix4f) (cache0 : Matrix4f) (c : Config) (a : Action)
    (h : Reachable init cache0 c) : Reachable init cache0 (step c a) := by
  cases a with
  | callSet Tcw => exact reachable_callSet init cache0 c Tcw h
  | producer => exact reachable_producer init cache0 c h
  | callGet i now cam_pose => exact reachable_callGet init cache0 c i now cam_pose h
  | reader i racy => exact reachable_reader init cache0 c i racy h

theorem reachable_interleave (init : Option Matrix4f) (cache0 : Matrix4f)
    (schedule : List Action) (c : Config) (h : Reachable init cache0 c) :
    Reachable init cache0 (interleave c schedule) := by
  induction schedule generalizing c with
  | nil => exact h
  | cons a schedule ih => exact ih (step c a) (reachable_step init cache0 c a h)

theorem step_mTrans_cam2ground (c : Config) (a : Action) :
    (step c a).obj.mTrans_cam2ground = c.obj.mTrans_cam2ground := by
  cases a with
  | callSet Tcw =>
    unfold step
    simp only []
    split <;> rfl
  | producer =>
    unfold step producerStep
    simp only []
    split <;> try rfl
    split <;> rfl
  | callGet i now cam_pose =>
    unfold step
    simp only []
    split <;> rfl
  | reader i racy =>
    unfold step readerStep
    simp only []
    split <;> try rfl
    · split
      · rfl
      · split <;> rfl
    · split <;> rfl
    · split
      · rfl
      · split <;> rfl

theorem interleave_mTrans_cam2ground (schedule : List Action) (c : Config) :
    (interleave c schedule).obj.mTrans_cam2ground = c.obj.mTrans_cam2ground := by
  induction schedule generalizing c with
  | nil => rfl
  | cons a schedule ih =>
    exact (ih (step c a)).trans (step_mTrans_cam2ground c a)

/-- A call of `SetCurrentCameraPose` that runs from its first statement to its
last with no other thread holding the lock does what the sequential function
does. -/
theorem interleave_SetCurrentCameraPose_alone (c : Config) (Tcw : Option Matrix4f)
    (hp : c.producer = ProducerPc.idle) (hm : c.mMutexCamera = none) :
    (interleave c [Action.callSet Tcw, Action.producer, Action.producer, Action.producer,
      Action.producer, Action.producer]).obj = SetCurrentCameraPose c.obj Tcw ∧
    (interleave c [Action.callSet Tcw, Action.producer, Action.producer, Action.producer,
      Action.producer, Action.producer]).producer = ProducerPc.idle ∧
    (interleave c [Action.callSet Tcw, Action.producer, Action.producer, Action.producer,
      Action.producer, Action.producer]).mMutexCamera = none := by
  simp [interleave, step, producerStep, hp, hm, SetCurrentCameraPose]

/-- A call of `GetCurrentROSCameraMatrix` that runs from its first statement
to its last with no other thread taking a step does what the sequential
function does. -/
theorem interleave_GetCurrentROSCameraMatrix_alone (c : Config) (i now : Nat)
    (cam_pose : PoseStamped) (r : Bool)
    (hi : c.readers i = ReaderPc.idle) (hm : c.mMutexCamera = none)
    (hp : c.assigning = false) :
    (interleave c [Action.callGet i now cam_pose, Action.reader i r, Action.reader i r,
      Action.reader i r, Action.reader i r, Action.reader i r, Action.reader i r,
      Action.reader i r]).obj = (GetCurrentROSCameraMatrix c.obj now cam_pose).1 ∧
    (interleave c [Action.callGet i now cam_pose, Action.reader i r, Action.reader i r,
      Action.reader i r, Action.reader i r, Action.reader i r, Action.reader i r,
      Action.reader i r]).readers i =
      ReaderPc.returned (GetCurrentROSCameraMatrix c.obj now cam_pose).2 c.obj.mCameraPose ∧
    (interleave c [Action.callGet i now cam_pose, Action.reader i r, Action.reader i r,
      Action.reader i r, Action.reader i r, Action.reader i r, Action.reader i r,
      Action.reader i r]).mMutexCamera = none := by
  simp only [Config.assigning] at hp
  cases hc : c.obj.mCameraPose with
  | none =>
    simp [interleave, step, readerStep, Config.setReader, Config.assigning, hi, hm, hp, hc,
      GetCurrentROSCameraMatrix]
  | some T =>
    simp [interleave, step, readerStep, Config.setReader, Config.assigning, hi, hm, hp, hc,
      GetCurrentROSCameraMatrix]

/-- C8, as stated, fails when `SetCurrentCameraPose` runs during a pass of the
pose loop.  On the constructed object the pose `1` is set, which sets the
flag; the pose loop enters `GetCurrentROSCameraMatrix` (reader `0`) and gets
as far as `mbGetNewCamPose = false`; a complete call of
`SetCurrentCameraPose` with another non-empty pose then runs; the reader
clears the flag and returns the pose computed from `1`.  The new pose is
stored, the flag is false, and the next pass of the pose loop publishes
nothing. -/
theorem pose_set_during_a_pass_is_not_published :
    ((interleave (Config.initial (SlamDataPub.construct false 0 0))
        [Action.callSet (some 1), Action.producer, Action.producer, Action.producer,
         Action.producer, Action.producer]).obj.mbGetNewCamPose = true) ∧
    ((interleave (Config.initial (SlamDataPub.construct false 0 0))
        [Action.callSet (some 1), Action.producer, Action.producer, Action.producer,
         Action.producer, Action.producer,
         Action.callGet 0 0 PoseStamped.default, Action.reader 0 false, Action.reader 0 false,
         Action.reader 0 false, Action.reader 0 false, Action.reader 0 false,
         Action.reader 0 false,
         Action.callSet (some (homogeneous mInitCam2Ground_R ![1, 2, 3])), Action.producer,
         Action.producer, Action.producer, Action.producer, Action.producer,
         Action.reader 0 false]).producer = ProducerPc.idle) ∧
    ((interleave (Config.initial (SlamDataPub.construct false 0 0))
        [Action.callSet (some 1), Action.producer, Action.producer, Action.producer,
         Action.producer, Action.producer,
         Action.callGet 0 0 PoseStamped.default, Action.reader 0 false, Action.reader 0 false,
         Action.reader 0 false, Action.reader 0 false, Action.reader 0 false,
         Action.reader 0 false,
         Action.callSet (some (homogeneous mInitCam2Ground_R ![1, 2, 3])), Action.producer,
         Action.producer, Action.producer, Action.producer, Action.producer,
         Action.reader 0 false]).readers 0 =
       ReaderPc.returned
         { header := { seq := 0, stamp := 0, frame_id := "ground" }
           pose := poseOfMatrix ((SlamDataPub.construct false 0 0).mTrans_cam2ground *
             inverse 1) } (some 1)) ∧
    ((interleave (Config.initial (SlamDataPub.construct false 0 0))
        [Action.callSet (some 1), Action.producer, Action.producer, Action.producer,
         Action.producer, Action.producer,
         Action.callGet 0 0 PoseStamped.default, Action.reader 0 false, Action.reader 0 false,
         Action.reader 0 false, Action.reader 0 false, Action.reader 0 false,
         Action.reader 0 false,
         Action.callSet (some (homogeneous mInitCam2Ground_R ![1, 2, 3])), Action.producer,
         Action.producer, Action.producer, Action.producer, Action.producer,
         Action.reader 0 false]).obj.mCameraPose =
       some (homogeneous mInitCam2Ground_R ![1, 2, 3])) ∧
    ((interleave (Config.initial (SlamDataPub.construct false 0 0))
        [Action.callSet (some 1), Action.producer, Action.producer, Action.producer,
         Action.producer, Action.producer,
         Action.callGet 0 0 PoseStamped.default, Action.reader 0 false, Action.reader 0 false,
         Action.reader 0 false, Action.reader 0 false, Action.reader 0 false,
         Action.reader 0 false,
         Action.callSet (some (homogeneous mInitCam2Ground_R ![1, 2, 3])), Action.producer,
         Action.producer, Action.producer, Action.producer, Action.producer,
         Action.reader 0 false]).obj.mbGetNewCamPose = false) ∧
    ((TrackingDataPubBody
        (interleave (Config.initial (SlamDataPub.construct false 0 0))
          [Action.callSet (some 1), Action.producer, Action.producer, Action.producer,
           Action.producer, Action.producer,
           Action.callGet 0 0 PoseStamped.default, Action.reader 0 false, Action.reader 0 false,
           Action.reader 0 false, Action.reader 0 false, Action.reader 0 false,
           Action.reader 0 false,
           Action.callSet (some (homogeneous mInitCam2Ground_R ![1, 2, 3])), Action.producer,
           Action.producer, Action.producer, Action.producer, Action.producer,
           Action.reader 0 false]).obj
        TrackingMessages.default [] ⟨1, 1, 1, 1, 1⟩).2.2 = []) :=
  ⟨rfl, rfl, rfl, rfl, rfl, rfl⟩

/-- C10, as stated, fails: the test `!mCameraPose.empty()` and the statement
`mbGetNewCamPose = false` are made without the camera lock.  On the
constructed object: (1) reader `0` makes the test while the producer holds the
lock in the middle of its assignment; (2) reader `0` clears the flag while the
producer holds the lock; (3) reader `0` finds the pose non-empty, the producer
stores an empty pose, and the reader takes the lock and inverts the empty
matrix, which throws and releases the lock. -/
theorem emptiness_test_and_flag_clear_outside_lock :
    ((interleave (Config.initial (SlamDataPub.construct false 0 0))
        [Action.callSet (some 1), Action.producer, Action.producer,
         Action.callGet 0 0 PoseStamped.default]).mMutexCamera = some ThreadId.producer ∧
     (interleave (Config.initial (SlamDataPub.construct false 0 0))
        [Action.callSet (some 1), Action.producer, Action.producer,
         Action.callGet 0 0 PoseStamped.default]).assigning = true ∧
     (interleave (Config.initial (SlamDataPub.construct false 0 0))
        [Action.callSet (some 1), Action.producer, Action.producer,
         Action.callGet 0 0 PoseStamped.default]).readers 0 =
       ReaderPc.checkEmpty 0 PoseStamped.default ∧
     (interleave (Config.initial (SlamDataPub.construct false 0 0))
        [Action.callSet (some 1), Action.producer, Action.producer,
         Action.callGet 0 0 PoseStamped.default, Action.reader 0 false]).readers 0 =
       ReaderPc.lock 0 PoseStamped.default ∧
     (interleave (Config.initial (SlamDataPub.construct false 0 0))
        [Action.callSet (some 1), Action.producer, Action.producer,
         Action.callGet 0 0 PoseStamped.default, Action.reader 0 false]).racedTests = [0]) ∧
    ((interleave (Config.initial (SlamDataPub.construct false 0 0))
        [Action.callSet (some 1), Action.producer, Action.producer, Action.producer,
         Action.producer, Action.producer,
         Action.callGet 0 0 PoseStamped.default, Action.reader 0 false, Action.reader 0 false,
         Action.reader 0 false, Action.reader 0 false, Action.reader 0 false,
         Action.reader 0 false,
         Action.callSet (some (homogeneous mInitCam2Ground_R ![1, 2, 3])), Action.producer,
         Action.reader 0 false]).mMutexCamera = some ThreadId.producer ∧
     (interleave (Config.initial (SlamDataPub.construct false 0 0))
        [Action.callSet (some 1), Action.producer, Action.producer, Action.producer,
         Action.producer, Action.producer,
         Action.callGet 0 0 PoseStamped.default, Action.reader 0 false, Action.reader 0 false,
         Action.reader 0 false, Action.reader 0 false, Action.reader 0 false,
         Action.reader 0 false,
         Action.callSet (some (homogeneous mInitCam2Ground_R ![1, 2, 3])),
         Action.producer]).obj.mbGetNewCamPose = true ∧
     (interleave (Config.initial (SlamDataPub.construct false 0 0))
        [Action.callSet (some 1), Action.producer, Action.producer, Action.producer,
         Action.producer, Action.producer,
         Action.callGet 0 0 PoseStamped.default, Action.reader 0 false, Action.reader 0 false,
         Action.reader 0 false, Action.reader 0 false, Action.reader 0 false,
         Action.reader 0 false,
         Action.callSet (some (homogeneous mInitCam2Ground_R ![1, 2, 3])), Action.producer,
         Action.reader 0 false]).obj.mbGetNewCamPose = false) ∧
    ((interleave (Config.initial (SlamDataPub.construct false 0 0))
        [Action.callSet (some 1), Action.producer, Action.producer, Action.producer,
         Action.producer, Action.producer,
         Action.callGet 0 0 PoseStamped.default, Action.reader 0 false,
         Action.callSet none, Action.producer, Action.producer, Action.producer,
         Action.producer, Action.producer,
         Action.reader 0 false, Action.reader 0 false]).readers 0 = ReaderPc.threw ∧
     (interleave (Config.initial (SlamDataPub.construct false 0 0))
        [Action.callSet (some 1), Action.producer, Action.producer, Action.producer,
         Action.producer, Action.producer,
         Action.callGet 0 0 PoseStamped.default, Action.reader 0 false,
         Action.callSet none, Action.producer, Action.producer, Action.producer,
         Action.producer, Action.producer,
         Action.reader 0 false, Action.reader 0 false]).mMutexCamera = none) := by
  refine ⟨⟨rfl, rfl, rfl, rfl, rfl⟩, ⟨rfl, rfl, rfl⟩, ⟨rfl, rfl⟩⟩

/-- C10, amended: from every object on which no call is under way, under every
interleaving of calls of `SetCurrentCameraPose` by the producer with calls of
`GetCurrentROSCameraMatrix` by any readers, and for every reader `i`: the
reader never reads `mCameraPose` in the middle of its assignment; the matrix
it has read is the one the object held at the start or one of the matrices
passed to `SetCurrentCameraPose` (one of those passed, on an object whose pose
was empty at the start); the pose matrix it has computed is
`mTrans_cam2ground * inverse` of the matrix read, it is what
`mCam2GroundNow_T` holds when the reader has stored it and still owns the
lock, and the pose the reader writes to its output argument and returns is
the pose of that matrix; `mCam2GroundNow_T` always holds its first value or
such a product for a matrix passed whole; and while the reader stands at the
matrix read it owns `mMutexCamera` and no assignment is under way, the lock
being owned by a thread exactly while that thread stands between taking and
releasing it. -/
theorem matrix_read_under_camera_lock (obj : SlamDataPub) (schedule : List Action) (i : Nat) :
    (interleave (Config.initial obj) schedule).readers i ≠ ReaderPc.racedRead ∧
    (∀ Tcw, ((interleave (Config.initial obj) schedule).readers i).matrixRead = some Tcw →
      some Tcw = obj.mCameraPose ∨
        some Tcw ∈ (interleave (Config.initial obj) schedule).passed) ∧
    (obj.mCameraPose = none →
      ∀ Tcw, ((interleave (Config.initial obj) schedule).readers i).matrixRead = some Tcw →
        some Tcw ∈ (interleave (Config.initial obj) schedule).passed) ∧
    (∀ Tcw M, ((interleave (Config.initial obj) schedule).readers i).matrixRead = some Tcw →
      ((interleave (Config.initial obj) schedule).readers i).computed = some M →
      M = obj.mTrans_cam2ground * inverse Tcw) ∧
    (∀ now cam_pose Tcw M,
      (interleave (Config.initial obj) schedule).readers i =
        ReaderPc.unlock now cam_pose Tcw M →
      (interleave (Config.initial obj) schedule).obj.mCam2GroundNow_T =
        obj.mTrans_cam2ground * inverse Tcw) ∧
    (∀ out Tcw, ((interleave (Config.initial obj) schedule).readers i).output = some out →
      ((interleave (Config.initial obj) schedule).readers i).matrixRead = some Tcw →
      out.pose.position = translation (obj.mTrans_cam2ground * inverse Tcw) ∧
      out.pose = poseOfMatrix (obj.mTrans_cam2ground * inverse Tcw)) ∧
    ((interleave (Config.initial obj) schedule).obj.mCam2GroundNow_T = obj.mCam2GroundNow_T ∨
      ∃ Tcw, (some Tcw = obj.mCameraPose ∨
          some Tcw ∈ (interleave (Config.initial obj) schedule).passed) ∧
        (interleave (Config.initial obj) schedule).obj.mCam2GroundNow_T =
          obj.mTrans_cam2ground * inverse Tcw) ∧
    (∀ now cam_pose,
      (interleave (Config.initial obj) schedule).readers i = ReaderPc.readPose now cam_pose →
      (interleave (Config.initial obj) schedule).mMutexCamera = some (ThreadId.reader i) ∧
      (interleave (Config.initial obj) schedule).assigning = false) ∧
    (((interleave (Config.initial obj) schedule).readers i).holdsLock = true ↔
      (interleave (Config.initial obj) schedule).mMutexCamera = some (ThreadId.reader i)) ∧
    ((interleave (Config.initial obj) schedule).producer.holdsLock = true ↔
      (interleave (Config.initial obj) schedule).mMutexCamera = some ThreadId.producer) := by
  have h := reachable_interleave obj.mCameraPose obj.mCam2GroundNow_T schedule
    (Config.initial obj) (reachable_initial obj)
  have hG := interleave_mTrans_cam2ground schedule (Config.initial obj)
  have hG' : (interleave (Config.initial obj) schedule).obj.mTrans_cam2ground =
      obj.mTrans_cam2ground := hG
  have hmem : ∀ Tcw,
      ((interleave (Config.initial obj) schedule).readers i).matrixRead = some Tcw →
      some Tcw = obj.mCameraPose ∨
        some Tcw ∈ (interleave (Config.initial obj) schedule).passed := by
    intro Tcw hT
    have := h.read_mem i Tcw hT
    simpa only [List.mem_cons] using this
  refine ⟨h.not_raced i, hmem, ?_, ?_, ?_, ?_, ?_, ?_, h.reader_lock i, h.producer_lock⟩
  · intro hnone Tcw hT
    rcases hmem Tcw hT with h1 | h1
    · rw [hnone] at h1
      cases h1
    · exact h1
  · intro Tcw M hT hM
    have := h.computed_eq i Tcw M hT hM
    rw [hG'] at this
    exact this
  · intro now cam_pose Tcw M hpc
    have h1 := h.cache_fresh i now cam_pose Tcw M hpc
    have h2 := h.computed_eq i Tcw M (by rw [hpc]; rfl) (by rw [hpc]; rfl)
    rw [hG'] at h2
    rw [h1, h2]
  · intro out Tcw ho hT
    have := h.output_eq i out Tcw ho hT
    rw [hG'] at this
    exact ⟨by rw [this]; rfl, this⟩
  · rcases h.cache_mem with hc | ⟨T, hT, hc⟩
    · exact Or.inl hc
    · refine Or.inr ⟨T, ?_, ?_⟩
      · simpa only [List.mem_cons] using hT
      · rw [hc, hG']
  · intro now cam_pose hpc
    have hl : ((interleave (Config.initial obj) schedule).readers i).holdsLock = true := by
      rw [hpc]
      rfl
    exact ⟨(h.reader_lock i).1 hl, not_assigning_of_holdsLock _ _ _ i h hl⟩

/-- The amended C10 on the constructed object, where reader `0` runs a whole
call after a complete call of `SetCurrentCameraPose` has stored the pose with
rotation `mInitCam2Ground_R` and translation `(1,2,3)`: the matrix read is
that pose, it is among the matrices passed, the returned position is
`(-1,-2,-3)`, and `mCam2GroundNow_T` holds the product computed from it. -/
theorem matrix_read_under_camera_lock_witness :
    (SlamDataPub.construct false 0 0).mCameraPose = none ∧
    ((interleave (Config.initial (SlamDataPub.construct false 0 0))
        [Action.callSet (some (homogeneous mInitCam2Ground_R ![1, 2, 3])), Action.producer,
         Action.producer, Action.producer, Action.producer, Action.producer,
         Action.callGet 0 0 PoseStamped.default, Action.reader 0 false, Action.reader 0 false,
         Action.reader 0 false, Action.reader 0 false, Action.reader 0 false,
         Action.reader 0 false, Action.reader 0 false]).readers 0).matrixRead =
      some (homogeneous mInitCam2Ground_R ![1, 2, 3]) ∧
    some (homogeneous mInitCam2Ground_R ![1, 2, 3]) ∈
      (interleave (Config.initial (SlamDataPub.construct false 0 0))
        [Action.callSet (some (homogeneous mInitCam2Ground_R ![1, 2, 3])), Action.producer,
         Action.producer, Action.producer, Action.producer, Action.producer,
         Action.callGet 0 0 PoseStamped.default, Action.reader 0 false, Action.reader 0 false,
         Action.reader 0 false, Action.reader 0 false, Action.reader 0 false,
         Action.reader 0 false, Action.reader 0 false]).passed ∧
    ((interleave (Config.initial (SlamDataPub.construct false 0 0))
        [Action.callSet (some (homogeneous mInitCam2Ground_R ![1, 2, 3])), Action.producer,
         Action.producer, Action.producer, Action.producer, Action.producer,
         Action.callGet 0 0 PoseStamped.default, Action.reader 0 false, Action.reader 0 false,
         Action.reader 0 false, Action.reader 0 false, Action.reader 0 false,
         Action.reader 0 false, Action.reader 0 false]).readers 0).output =
      some { header := { seq := 0, stamp := 0, frame_id := "ground" }
             pose := poseOfMatrix ((SlamDataPub.construct false 0 0).mTrans_cam2ground *
               inverse (homogeneous mInitCam2Ground_R ![1, 2, 3])) } ∧
    (poseOfMatrix ((SlamDataPub.construct false 0 0).mTrans_cam2ground *
      inverse (homogeneous mInitCam2Ground_R ![1, 2, 3]))).position = ![-1, -2, -3] ∧
    (interleave (Config.initial (SlamDataPub.construct false 0 0))
        [Action.callSet (some (homogeneous mInitCam2Ground_R ![1, 2, 3])), Action.producer,
         Action.producer, Action.producer, Action.producer, Action.producer,
         Action.callGet 0 0 PoseStamped.default, Action.reader 0 false, Action.reader 0 false,
         Action.reader 0 false, Action.reader 0 false, Action.reader 0 false,
         Action.reader 0 false, Action.reader 0 false]).obj.mCam2GroundNow_T =
      (SlamDataPub.construct false 0 0).mTrans_cam2ground *
        inverse (homogeneous mInitCam2Ground_R ![1, 2, 3]) :=
  ⟨rfl, rfl,
   (matrix_read_under_camera_lock (SlamDataPub.construct false 0 0)
     [Action.callSet (some (homogeneous mInitCam2Ground_R ![1, 2, 3])), Action.producer,
      Action.producer, Action.producer, Action.producer, Action.producer,
      Action.callGet 0 0 PoseStamped.default, Action.reader 0 false, Action.reader 0 false,
      Action.reader 0 false, Action.reader 0 false, Action.reader 0 false,
      Action.reader 0 false, Action.reader 0 false] 0).2.2.1 rfl
     (homogeneous mInitCam2Ground_R ![1, 2, 3]) rfl,
   rfl,
   ((matrix_read_under_camera_lock (SlamDataPub.construct false 0 0)
     [Action.callSet (some (homogeneous mInitCam2Ground_R ![1, 2, 3])), Action.producer,
      Action.producer, Action.producer, Action.producer, Action.producer,
      Action.callGet 0 0 PoseStamped.default, Action.reader 0 false, Action.reader 0 false,
      Action.reader 0 false, Action.reader 0 false, Action.reader 0 false,
      Action.reader 0 false, Action.reader 0 false] 0).2.2.2.2.2.1
     { header := { seq := 0, stamp := 0, frame_id := "ground" }
       pose := poseOfMatrix ((SlamDataPub.construct false 0 0).mTrans_cam2ground *
         inverse (homogeneous mInitCam2Ground_R ![1, 2, 3])) }
     (homogeneous mInitCam2Ground_R ![1, 2, 3]) rfl rfl).1.trans translation_ground_example,
   rfl⟩

end ORB_SLAM2
